import Mathlib

set_option maxRecDepth 100000

/-!
Shallow embedding of the FireCAM firmware core (danjulio/firecam) and proofs
about its natural-language specification.

Each section embeds functions of one source file:
* `app_task.c`   - the orchestrator (one-second frame cycle, recording state)
* `lep_task.c` / `cam_task.c` - the imager driver tasks
* `vospi.c`      - thermal VoSPI packet handling
* `cmd_task.c`   - command-socket framing
* `ps_utilities.c` - persistent parameter store
* `json_utilities.c` - IP address rendering/parsing

Machine integers are modelled as `Nat` with explicit `% 256` where the C code
operates on `uint8_t`.  Byte buffers are modelled as total functions
`Nat → Nat` (writes truncate to a byte) or as `List Nat`.
-/

namespace Firecam

/-! ### Orchestrator: `app_task.c` -/

/-- `enum app_image_request_state_t` from app_task.c. -/
inductive ImgReqState
  | idle
  | requested
  | received
  | failed
deriving DecidableEq, Repr

/-- `enum app_state_t` from app_task.c. -/
inductive AppPhase
  | waitTOS
  | waitImage
deriving DecidableEq, Repr

/-- `APP_MAX_WAIT_MSEC` from app_task.c. -/
def APP_MAX_WAIT_MSEC : Nat := 800

/-- One evaluation of the `WAIT_IMAGE` case of the `switch` in `app_task()`.
Returns the argument pair of the `app_process_images(valid_cam, valid_lep)`
call when one is made (`none` when frame assembly is not run this tick),
together with the next value of `app_state`. -/
def app_task_wait_image (cam lep : ImgReqState) (msec_count : Nat)
    (app_recording file_image_send_pending cmd_requesting_image
     cmd_image_send_pending : Bool) : Option (Bool × Bool) × AppPhase :=
  if cam = .received ∧ lep = .received then
    (if (!file_image_send_pending && app_recording) ||
        (!app_recording && !cmd_image_send_pending && cmd_requesting_image) then
       some (true, true)
     else none,
     .waitTOS)
  else if msec_count ≥ APP_MAX_WAIT_MSEC then
    (if app_recording || cmd_requesting_image then
       some (decide (cam = .received), decide (lep = .received))
     else none,
     .waitTOS)
  else
    (none, .waitImage)

/-- The downstream-consumer readiness condition exactly as the specification
sentence behind claim C1 words it: the file recorder has no pending image
while recording, or a remote image request is pending with no response send
pending, or both.  (Spec-side definition, to be compared with the source's
`app_task_wait_image`.) -/
def spec_consumer_ready (app_recording file_image_send_pending
    cmd_requesting_image cmd_image_send_pending : Bool) : Bool :=
  (!file_image_send_pending && app_recording) ||
  (cmd_requesting_image && !cmd_image_send_pending)

/-- Recording-related state of `app_task.c` (the statics of the file plus a
flag recording that `esp_restart()` was invoked). `psRecEnable` is the value
held by the persistent "was recording" flag, i.e. what `ps_get_rec_enable()`
returns after the `ps_set_rec_enable` calls made so far. -/
structure RecState where
  app_recording : Bool
  psRecEnable : Bool
  app_rec_seq_num : Nat
  app_rec_interval_cnt : Nat
  rebooted : Bool
deriving DecidableEq, Repr

/-- `app_task_stop_recording(en_restart)` from app_task.c.  In the
`en_restart` branch the source makes a recursive call
`app_task_stop_recording(true)`; it is a no-op because `app_recording` has
already been cleared, after which `esp_restart()` is invoked (modelled by
setting `rebooted`). The persistent flag is written only in the clean-stop
branch. -/
def app_task_stop_recording (en_restart : Bool) (s : RecState) : RecState :=
  if s.app_recording then
    let s1 : RecState :=
      { s with app_recording := false, app_rec_seq_num := 0,
               app_rec_interval_cnt := 0 }
    if !en_restart then
      { s1 with psRecEnable := false }
    else
      { s1 with rebooted := true }
  else s

/-- The notifications of `app_task_handle_notifications()` that touch the
recording state machine. -/
inductive RecNotify
  | shutdown
  | recordBtn
  | recordStart
  | recordFail
  | startRecord
  | stopRecord
deriving DecidableEq, Repr

/-- The handling of one recording-related notification, from
`app_task_handle_notifications()` in app_task.c.  `APP_NOTIFY_RECORD_BTN`
with `app_recording == false` and `APP_NOTIFY_START_RECORD` both call
`app_task_start_recording`, which only notifies `file_task` and changes no
recording state of its own. -/
def app_task_handle_rec_notification (e : RecNotify) (s : RecState) : RecState :=
  match e with
  | .shutdown =>
      if s.app_recording then app_task_stop_recording false s else s
  | .recordBtn =>
      if s.app_recording then app_task_stop_recording false s
      else s
  | .recordStart =>
      { s with app_recording := true, app_rec_seq_num := 1,
               app_rec_interval_cnt := 0, psRecEnable := true }
  | .recordFail => app_task_stop_recording true s
  | .startRecord => s
  | .stopRecord => app_task_stop_recording false s

/-- The power-up check at the top of `app_task()`: when
`ps_get_rec_enable()` reports true, the task notifies itself with
`APP_NOTIFY_START_RECORD_MASK`. -/
def app_task_boot_signals (psRecEnable : Bool) : List RecNotify :=
  if psRecEnable then [.startRecord] else []

/-! ### Imager driver tasks: `lep_task.c` and `cam_task.c` -/

/-- The two terminal notifications an imager driver can send to `app_task`
for one requested frame (`APP_NOTIFY_*_FRAME_MASK` / `APP_NOTIFY_*_FAIL_MASK`). -/
inductive ImgSignal
  | frame
  | fail
deriving DecidableEq, Repr

/-- The `while (!done)` loop of `lep_task()` servicing one
`LEP_NOTIFY_GET_FRAME` request.  `attempts k` is the outcome of the k-th
`vospi_transfer_segment` call (true = a complete frame was obtained).
The driver gives up after the 36th failed attempt (`++vsync_count == 36`).
Returns the notifications sent to `app_task`; `k` is the current value of
`vsync_count` and `fuel` bounds the remaining iterations. -/
def lep_task_loop (attempts : Nat → Bool) (k : Nat) : Nat → List ImgSignal
  | 0 => []
  | fuel + 1 =>
    if attempts k then [.frame]
    else if k + 1 = 36 then [.fail]
    else lep_task_loop attempts (k + 1) fuel

/-- Notifications sent by `lep_task` for one frame request (the loop enters
with `vsync_count = 0`; 36 iterations suffice to reach the give-up bound). -/
def lep_task_request (attempts : Nat → Bool) : List ImgSignal :=
  lep_task_loop attempts 0 36

/-- `CAM_MAX_JPEG_WAIT_TIME_MSEC / CAM_JPEG_TASK_WAIT_MSEC` from cam_task.c
(300 / 10). -/
def CAM_WAIT_COUNT : Nat := 30

/-- The capture-complete polling loop of `cam_task()`:
`while (!ov2640_getBit(ARDUCHIP_TRIG, CAP_DONE_MASK) && (wait_count-- > 0))`.
`captureDone i` is the bit read on the i-th poll.  Returns the final value
of `wait_count` (an `Int`, since the C post-decrement drives it to -1 on a
full timeout).  The result is used by the source only for a log line. -/
def cam_task_wait (captureDone : Nat → Bool) (i : Nat) (count : Int) :
    Nat → Int
  | 0 => count
  | fuel + 1 =>
    if captureDone i then count
    else if count > 0 then cam_task_wait captureDone (i + 1) (count - 1) fuel
    else count - 1

/-- Externally visible actions of `cam_task` while servicing one request. -/
inductive CamAction
  | capture
  | lockVspi
  | transferJpeg
  | unlockVspi
deriving DecidableEq, Repr

/-- Result of `cam_task()` servicing one `CAM_NOTIFY_GET_FRAME` request. -/
structure CamRequestResult where
  final_wait_count : Int
  actions : List CamAction
  signals : List ImgSignal
deriving DecidableEq, Repr

/-- One iteration of the request loop of `cam_task()`: trigger the capture,
poll for capture-complete with deadline `CAM_WAIT_COUNT`, then (whether or
not the poll loop saw the bit) lock the VSPI bus, run
`ov2640_transferJpeg` and unlock, and signal `app_task` failure exactly
when the transferred length is zero.  `captureDone` is the polled bit
sequence and `transfer_len` the length `ov2640_transferJpeg` reports. -/
def cam_task_request (captureDone : Nat → Bool) (transfer_len : Nat) :
    CamRequestResult :=
  { final_wait_count :=
      cam_task_wait captureDone 0 (Int.ofNat CAM_WAIT_COUNT) (CAM_WAIT_COUNT + 1),
    actions := [.capture, .lockVspi, .transferJpeg, .unlockVspi],
    signals := if transfer_len = 0 then [.fail] else [.frame] }

/-! ### Thermal VoSPI: `vospi.c`

A Lepton packet is modelled as its byte sequence `pkt : Nat → Nat`
(indices 0..163, reads truncated to a byte) and the frame buffer
`lepBuffer` as a word-addressed function `Nat → Nat`. -/

/-- `LEP_WIDTH` from lepton.h. -/
def LEP_WIDTH : Nat := 160

/-- `LEP_PKT_LENGTH` from lepton.h. -/
def LEP_PKT_LENGTH : Nat := 164

/-- Write one 16-bit word of the frame buffer. -/
def lepWrite (buf : Nat → Nat) (i v : Nat) : Nat → Nat :=
  fun j => if j = i then v else buf j

/-- The word copied for the j-th pair of payload bytes by
`copy_packet_to_buffer`: `t = *lepPopPtr++ << 8; t |= *lepPopPtr++;`
starting at packet byte 4 (big-endian; packet bytes are `uint8_t`). -/
def lepPacketWord (pkt : Nat → Nat) (j : Nat) : Nat :=
  (pkt (4 + 2 * j) % 256) * 256 + pkt (5 + 2 * j) % 256

/-- The copy loop of `copy_packet_to_buffer`, one word per step; `j` is the
index of the next word and `count` the number of words still to copy. -/
def copy_packet_loop (base : Nat) (pkt : Nat → Nat) (j : Nat)
    (buf : Nat → Nat) : Nat → (Nat → Nat)
  | 0 => buf
  | count + 1 =>
      copy_packet_loop base pkt (j + 1)
        (lepWrite buf (base + j) (lepPacketWord pkt j)) count

/-- `copy_packet_to_buffer(line)` from vospi.c: copy packet payload bytes
4..163 as 80 big-endian words into `lepBuffer` starting at word offset
`((curSegment-1) * 30 * LEP_WIDTH) + (line * (LEP_WIDTH/2))`. -/
def copy_packet_to_buffer (curSegment line : Nat) (pkt : Nat → Nat)
    (buf : Nat → Nat) : Nat → Nat :=
  copy_packet_loop ((curSegment - 1) * 30 * LEP_WIDTH + line * (LEP_WIDTH / 2))
    pkt 0 buf ((LEP_PKT_LENGTH - 4) / 2)

/-- The processing state of `vospi.c` (`curSegment`,
`validSegmentRegion`). -/
structure VospiState where
  curSegment : Nat
  validSegmentRegion : Bool
deriving DecidableEq, Repr

/-- The `line == 20` block of `vospi_transfer_segment`: check the segment
number, possibly entering the valid-segment region (segment 1 seen while
not yet valid) or resetting to segment 1 (invalid segment seen while
valid).  Returns the updated state and `beforeValidData`. -/
def vospi_check_line20 (st : VospiState) (beforeValidData : Bool)
    (line seg : Nat) : VospiState × Bool :=
  if line = 20 then
    if !st.validSegmentRegion then
      if seg = 1 then ({ st with validSegmentRegion := true }, false)
      else (st, beforeValidData)
    else if seg < 2 ∨ seg > 4 then
      ({ curSegment := 1, validSegmentRegion := false }, beforeValidData)
    else (st, beforeValidData)
  else (st, beforeValidData)

/-- Result of processing one packet inside the `while (!done)` loop of
`vospi_transfer_segment`. -/
structure VospiStepResult where
  state : VospiState
  beforeValidData : Bool
  buf : Nat → Nat
  done : Bool
  success : Bool

/-- The copy and line-59 completion logic of the loop body of
`vospi_transfer_segment`, applied after the line-20 segment check produced
`p = (state, beforeValidData)`: the payload is copied when
`(beforeValidData || validSegmentRegion) && (line <= 59)`; line 59
completes the segment, advancing `curSegment` or, on segment 4 of the
valid region, completing the frame. -/
def vospi_copy_and_complete (p : VospiState × Bool) (line : Nat)
    (pkt : Nat → Nat) (buf : Nat → Nat) : VospiStepResult :=
  let buf1 :=
    if (p.2 || p.1.validSegmentRegion) && decide (line ≤ 59) then
      copy_packet_to_buffer p.1.curSegment line pkt buf
    else buf
  if line = 59 then
    if p.1.validSegmentRegion then
      if p.1.curSegment < 4 then
        ⟨{ p.1 with curSegment := p.1.curSegment + 1 }, p.2, buf1, true, false⟩
      else
        ⟨{ curSegment := 1, validSegmentRegion := false }, p.2, buf1, true, true⟩
    else ⟨p.1, p.2, buf1, true, false⟩
  else ⟨p.1, p.2, buf1, false, false⟩

/-- Processing of one packet by the loop body of `vospi_transfer_segment`
(vospi.c lines 127-174).  A packet whose first byte has low nibble 0xF is
a discard and changes nothing; a repeated line number terminates the
segment read; otherwise the line-20 segment logic runs, followed by the
copy and the line-59 completion check.  The line number is packet byte 1,
the segment number the upper nibble of byte 0. -/
def vospi_process_packet (st : VospiState) (beforeValidData : Bool)
    (prevLine : Nat) (pkt : Nat → Nat) (buf : Nat → Nat) : VospiStepResult :=
  if pkt 0 % 16 = 15 then
    ⟨st, beforeValidData, buf, false, false⟩
  else if pkt 1 % 256 = prevLine then
    ⟨st, beforeValidData, buf, true, false⟩
  else
    vospi_copy_and_complete
      (vospi_check_line20 st beforeValidData (pkt 1 % 256) (pkt 0 % 256 / 16))
      (pkt 1 % 256) pkt buf

/-! ### Command responder framing: `cmd_task.c`

The circular receive buffer is a total function `Nat → Nat`; only indices
0..1023 are ever written.  `in_buffer` in the source wraps its scan index
only after it has exceeded `CMD_MAX_TCP_RX_BUFFER_LEN`, so it also
consults index 1024; that one out-of-range byte reads as 0 here (the C
array has static storage duration, and the adjacent statics are
zero-initialised at the point the bug can first fire). -/

/-- `CMD_MAX_TCP_RX_BUFFER_LEN` from system_config.h. -/
def CMD_MAX_TCP_RX_BUFFER_LEN : Nat := 1024

/-- `JSON_MAX_CMD_TEXT_LEN` from system_config.h. -/
def JSON_MAX_CMD_TEXT_LEN : Nat := 256

/-- `CMD_JSON_STRING_START` from cmd_task.h. -/
def CMD_JSON_STRING_START : Nat := 2

/-- `CMD_JSON_STRING_STOP` from cmd_task.h. -/
def CMD_JSON_STRING_STOP : Nat := 3

/-- The receive state of `cmd_task.c`: `rx_circular_buffer` with its push
and pop indices. -/
structure RxState where
  buf : Nat → Nat
  push : Nat
  pop : Nat

/-- The push loop at the top of `process_rx_data`: append the received
bytes at the push index, wrapping at `CMD_MAX_TCP_RX_BUFFER_LEN`. -/
def rx_push_data (st : RxState) : List Nat → RxState
  | [] => st
  | d :: rest =>
      rx_push_data
        ⟨fun j => if j = st.push then d % 256 else st.buf j,
         if st.push + 1 ≥ CMD_MAX_TCP_RX_BUFFER_LEN then 0 else st.push + 1,
         st.pop⟩ rest

/-- The scan-index advance of `in_buffer`: `if (i++ >= LEN) i = 0;` — the
index wraps only after it has already exceeded the last array slot, so the
scan visits index 1024 once. -/
def in_buffer_next (i : Nat) : Nat :=
  if i ≥ CMD_MAX_TCP_RX_BUFFER_LEN then 0 else i + 1

/-- `in_buffer(c)` from cmd_task.c: scan from the pop index towards the
push index for byte `c`, returning its location (the source returns -1,
here `none`, when the scan reaches the push index).  The fuel bounds the
iteration count; 1026 steps always suffice to visit every index. -/
def in_buffer (buf : Nat → Nat) (push c i : Nat) : Nat → Option Nat
  | 0 => none
  | fuel + 1 =>
      if i = push then none
      else if buf i = c then some i
      else in_buffer buf push c (in_buffer_next i) fuel

/-- The pop-index advance used throughout `process_rx_data`:
`if (++idx >= LEN) idx = 0;`. -/
def rx_pop_next (p : Nat) : Nat :=
  if p + 1 ≥ CMD_MAX_TCP_RX_BUFFER_LEN then 0 else p + 1

/-- The `while (rx_circular_pop_index != X)` skip loops of
`process_rx_data`, advancing the pop index until it reaches `target`. -/
def rx_skip_to (target p : Nat) : Nat → Nat
  | 0 => p
  | fuel + 1 => if p = target then p else rx_skip_to target (rx_pop_next p) fuel

/-- The copy loop of `process_rx_data`: copy bytes from the pop index up
to (excluding) `endIdx` into `json_cmd_string`, bounded by
`CMD_MAX_TCP_RX_BUFFER_LEN` iterations; only the first
`JSON_MAX_CMD_TEXT_LEN` bytes are stored.  Returns the iteration count
`i`, the final pop index, and the stored bytes. -/
def rx_copy_loop (buf : Nat → Nat) (endIdx p i : Nat) (acc : List Nat) :
    Nat → Nat × Nat × List Nat
  | 0 => (i, p, acc)
  | fuel + 1 =>
      if p = endIdx ∨ ¬ i < CMD_MAX_TCP_RX_BUFFER_LEN then (i, p, acc)
      else
        rx_copy_loop buf endIdx (rx_pop_next p) (i + 1)
          (acc ++ if i < JSON_MAX_CMD_TEXT_LEN then [buf p] else []) fuel

/-- The scan half of `process_rx_data` from cmd_task.c: look for a
complete `0x02 <JSON> 0x03` framed command in the circular buffer.
Returns the new receive state and, when a command string is extracted and
handed to `process_rx_packet`, the bytes of that string (the copy starts
at the 0x02, which the JSON parser treats as whitespace). -/
def process_rx_scan (st : RxState) : RxState × Option (List Nat) :=
  match in_buffer st.buf st.push CMD_JSON_STRING_STOP st.pop 1026 with
  | none => (st, none)
  | some endIdx =>
    match in_buffer st.buf st.push CMD_JSON_STRING_START st.pop 1026 with
    | some beginIdx =>
        let p1 := rx_skip_to beginIdx st.pop 1025
        let r := rx_copy_loop st.buf endIdx p1 0 [] 1025
        let p3 := rx_pop_next r.2.1
        if r.1 < JSON_MAX_CMD_TEXT_LEN + 1 then
          (⟨st.buf, st.push, p3⟩, some r.2.2)
        else
          (⟨st.buf, st.push, p3⟩, none)
    | none =>
        (⟨st.buf, st.push, rx_skip_to endIdx st.pop 1025⟩, none)

/-- `process_rx_data(data, len)` from cmd_task.c: push the received bytes
into the circular buffer, then scan for a framed command. -/
def process_rx_data (st0 : RxState) (data : List Nat) :
    RxState × Option (List Nat) :=
  process_rx_scan (rx_push_data st0 data)

/-- The circular-buffer byte sequence of length `n` starting at index
`p` (advancing like the pop index).  The copy loop of `process_rx_data`
collects exactly such a window. -/
def rx_window (buf : Nat → Nat) (p : Nat) : Nat → List Nat
  | 0 => []
  | n + 1 => buf p :: rx_window buf (rx_pop_next p) n

/-- The initial receive state (`init_command_processor`; the buffer is a
zero-initialised static array). -/
def rx_init_state : RxState := ⟨fun _ => 0, 0, 0⟩

/-! ### Persistent parameter store: `ps_utilities.c`

The shadow buffer `ps_shadow_buffer` is a byte array modelled as
`Nat → Nat`; every write truncates to a byte and every read of a prior
(externally supplied) buffer applies `% 256`, mirroring `uint8_t`. -/

/-- `SRAM_SIZE` — the DS3232 battery-backed SRAM size.  Modelled from the
spec: ds3232.h is not under src/; the spec describes a fixed-size
checksummed byte array in the RTC chip RAM (236 bytes on this part). -/
def SRAM_SIZE : Nat := 236

/-- `PS_MAGIC_WORD_0` from ps_utilities.c. -/
def PS_MAGIC_WORD_0 : Nat := 0x12

/-- `PS_MAGIC_WORD_1` from ps_utilities.c. -/
def PS_MAGIC_WORD_1 : Nat := 0x34

/-- `PS_LAYOUT_VERSION` from ps_utilities.c. -/
def PS_LAYOUT_VERSION : Nat := 2

/-- `PS_SSID_MAX_LEN` from ps_utilities.h. -/
def PS_SSID_MAX_LEN : Nat := 32

/-- `PS_PW_MAX_LEN` from ps_utilities.h. -/
def PS_PW_MAX_LEN : Nat := 32

/-- `PS_PALETTE_NAME_LEN` from ps_utilities.h. -/
def PS_PALETTE_NAME_LEN : Nat := 16

/-- `PS_REC_INTERVAL_LEN` from ps_utilities.h. -/
def PS_REC_INTERVAL_LEN : Nat := 2

/-- Memory array indices of ps_utilities.c (the `*_ADDR` macro chain). -/
def PS_MAGIC_WORD_0_ADDR : Nat := 0

def PS_MAGIC_WORD_1_ADDR : Nat := 1

def PS_LAYOUT_VERSION_ADDR : Nat := 2

def PS_REC_EN_ADDR : Nat := 3

def PS_WIFI_EN_ADDR : Nat := 4

def PS_WIFI_AP_SSID_ADDR : Nat := 5

def PS_WIFI_AP_PW_ADDR : Nat := PS_WIFI_AP_SSID_ADDR + PS_SSID_MAX_LEN + 1

def PS_WIFI_STA_SSID_ADDR : Nat := PS_WIFI_AP_PW_ADDR + PS_PW_MAX_LEN + 1

def PS_WIFI_STA_PW_ADDR : Nat := PS_WIFI_STA_SSID_ADDR + PS_SSID_MAX_LEN + 1

def PS_WIFI_AP_IP_ADDR : Nat := PS_WIFI_STA_PW_ADDR + PS_PW_MAX_LEN + 1

def PS_WIFI_STA_IP_ADDR : Nat := PS_WIFI_AP_IP_ADDR + 4

def PS_REC_ARD_EN_ADDR : Nat := PS_WIFI_STA_IP_ADDR + 4

def PS_REC_LEP_EN_ADDR : Nat := PS_REC_ARD_EN_ADDR + 1

def PS_GAIN_MODE_ADDR : Nat := PS_REC_LEP_EN_ADDR + 1

def PS_PALETTE_NAME_ADDR : Nat := PS_GAIN_MODE_ADDR + 1

def PS_REC_INTERVAL_ADDR : Nat := PS_PALETTE_NAME_ADDR + PS_PALETTE_NAME_LEN + 1

def PS_CHECKSUM_ADDR : Nat := SRAM_SIZE - 1

/-- `PS_WIFI_FLAG_MASK` from ps_utilities.c:
`WIFI_INFO_FLAG_STARTUP_ENABLE (0x01) | WIFI_INFO_FLAG_CL_STATIC_IP (0x10)
| WIFI_INFO_FLAG_CLIENT_MODE (0x80)`. -/
def PS_WIFI_FLAG_MASK : Nat := 0x91

/-- A byte write into the shadow buffer. -/
def psUpdate (b : Nat → Nat) (i v : Nat) : Nat → Nat :=
  fun j => if j = i then v % 256 else b j

/-- `ps_compute_checksum()` from ps_utilities.c: the sum of all bytes below
the checksum address, as a byte. -/
def ps_compute_checksum (b : Nat → Nat) : Nat :=
  (((List.range PS_CHECKSUM_ADDR).map (fun i => b i % 256)).sum) % 256

/-- The statement `ps_shadow_buffer[PS_CHECKSUM_ADDR] = ps_compute_checksum();`
that ends every mutating ps operation. -/
def ps_seal_checksum (b : Nat → Nat) : Nat → Nat :=
  psUpdate b PS_CHECKSUM_ADDR (ps_compute_checksum b)

/-- The loop of `ps_store_string`: copy the string bytes (null modelled as
the end of the list) and pad the remainder of the region with nulls;
exactly `max_len` bytes are written. -/
def ps_store_go (s : List Nat) (start i : Nat) (sawEnd : Bool)
    (b : Nat → Nat) : Nat → (Nat → Nat)
  | 0 => b
  | count + 1 =>
      if sawEnd then
        ps_store_go s start (i + 1) true (psUpdate b (start + i) 0) count
      else
        ps_store_go s start (i + 1) (decide (s.getD i 0 % 256 = 0))
          (psUpdate b (start + i) (s.getD i 0)) count

/-- `ps_store_string(s, start, max_len)` from ps_utilities.c. -/
def ps_store_string (s : List Nat) (start maxLen : Nat) (b : Nat → Nat) :
    Nat → Nat :=
  ps_store_go s start 0 false b maxLen

/-- Reading a null-terminated string out of the shadow buffer (the
`strcpy`/`strcmp` accesses of the read paths); `fuel` bounds the region
length. -/
def ps_read_cstring (b : Nat → Nat) (start : Nat) : Nat → List Nat
  | 0 => []
  | fuel + 1 =>
      if b start % 256 = 0 then []
      else b start % 256 :: ps_read_cstring b (start + 1) fuel

/-- `wifi_info_t` (strings as byte lists, IPv4 addresses as 4-byte lists,
least-significant octet at index 0). -/
structure WifiInfo where
  ap_ssid : List Nat
  sta_ssid : List Nat
  ap_pw : List Nat
  sta_pw : List Nat
  flags : Nat
  ap_ip_addr : List Nat
  sta_ip_addr : List Nat
deriving DecidableEq, Repr

/-- `gui_state_t` from sys_utilities.h (the fields the persistent store
uses). -/
structure GuiState where
  rec_arducam_enable : Bool
  rec_lepton_enable : Bool
  gain_mode : Nat
  record_interval : Nat
  record_interval_index : Nat
  palette_index : Nat
deriving DecidableEq, Repr

/-- The palette name table of palettes.c (`palettes[i].name`), as byte
lists. -/
def palettes : List (List Nat) :=
  [("Grayscale".toList.map Char.toNat),
   ("Fusion".toList.map Char.toNat),
   ("Rainbow".toList.map Char.toNat),
   ("Rainbow2".toList.map Char.toNat),
   ("Ironblack".toList.map Char.toNat),
   ("Arctic".toList.map Char.toNat)]

/-- `get_palette_name(n)` from palettes.c. -/
def get_palette_name (n : Nat) : List Nat := palettes.getD n []

/-- `get_palette_by_name(name)` from palettes.c: index of the first
palette whose name matches, `none` (the source returns -1) otherwise. -/
def get_palette_by_name (name : List Nat) : Option Nat :=
  palettes.findIdx? (fun p => p == name)

/-- Modelled from the spec: the `record_intervals` table of
sys_utilities.c is not under src/; the spec fixes the allowed
recording-interval set as 1, 5, 30, 60, 300, 1800, 3600 seconds. -/
def record_intervals : List Nat := [1, 5, 30, 60, 300, 1800, 3600]

/-- Modelled from the spec: `system_get_rec_interval_index` of
sys_utilities.c is not under src/; it reports the table index of a legal
interval and -1 (here `none`) for an illegal one. -/
def system_get_rec_interval_index (n : Nat) : Option Nat :=
  record_intervals.findIdx? (fun v => v == n)

/-- `LEP_DEF_GAIN_MODE` — modelled from the spec: the macro's header is
not under src/; the spec's cold-boot scenario fixes the default gain mode
as AUTO (`SYS_GAIN_AUTO = 2`). -/
def LEP_DEF_GAIN_MODE : Nat := 2

/-- `ps_get_rec_enable()` from ps_utilities.c. -/
def ps_get_rec_enable (b : Nat → Nat) : Bool :=
  b PS_REC_EN_ADDR % 256 ≠ 0

/-- `ps_get_wifi_info(info)` from ps_utilities.c — a pure read of the
shadow buffer. -/
def ps_get_wifi_info (b : Nat → Nat) : WifiInfo :=
  { ap_ssid := ps_read_cstring b PS_WIFI_AP_SSID_ADDR (PS_SSID_MAX_LEN + 1),
    ap_pw := ps_read_cstring b PS_WIFI_AP_PW_ADDR (PS_PW_MAX_LEN + 1),
    sta_ssid := ps_read_cstring b PS_WIFI_STA_SSID_ADDR (PS_SSID_MAX_LEN + 1),
    sta_pw := ps_read_cstring b PS_WIFI_STA_PW_ADDR (PS_PW_MAX_LEN + 1),
    flags := Nat.land (b PS_WIFI_EN_ADDR % 256) PS_WIFI_FLAG_MASK,
    ap_ip_addr := [b PS_WIFI_AP_IP_ADDR % 256, b (PS_WIFI_AP_IP_ADDR + 1) % 256,
                   b (PS_WIFI_AP_IP_ADDR + 2) % 256, b (PS_WIFI_AP_IP_ADDR + 3) % 256],
    sta_ip_addr := [b PS_WIFI_STA_IP_ADDR % 256, b (PS_WIFI_STA_IP_ADDR + 1) % 256,
                    b (PS_WIFI_STA_IP_ADDR + 2) % 256, b (PS_WIFI_STA_IP_ADDR + 3) % 256] }

/-- `ps_set_rec_enable(en)` from ps_utilities.c. -/
def ps_set_rec_enable (en : Bool) (b : Nat → Nat) : Nat → Nat :=
  ps_seal_checksum (psUpdate b PS_REC_EN_ADDR (if en then 1 else 0))

/-- The IP-array store loop of `ps_set_wifi_info` (interleaved AP/STA
byte writes for i = 0..3). -/
def ps_set_wifi_ip_bytes (info : WifiInfo) (b : Nat → Nat) : Nat → Nat :=
  psUpdate (psUpdate (psUpdate (psUpdate (psUpdate (psUpdate (psUpdate (psUpdate b
    (PS_WIFI_AP_IP_ADDR + 0) (info.ap_ip_addr.getD 0 0))
    (PS_WIFI_STA_IP_ADDR + 0) (info.sta_ip_addr.getD 0 0))
    (PS_WIFI_AP_IP_ADDR + 1) (info.ap_ip_addr.getD 1 0))
    (PS_WIFI_STA_IP_ADDR + 1) (info.sta_ip_addr.getD 1 0))
    (PS_WIFI_AP_IP_ADDR + 2) (info.ap_ip_addr.getD 2 0))
    (PS_WIFI_STA_IP_ADDR + 2) (info.sta_ip_addr.getD 2 0))
    (PS_WIFI_AP_IP_ADDR + 3) (info.ap_ip_addr.getD 3 0))
    (PS_WIFI_STA_IP_ADDR + 3) (info.sta_ip_addr.getD 3 0)

/-- `ps_set_wifi_info(info)` from ps_utilities.c: the source computes the
checksum once before the IP-byte loop and once again after it; both
writes are kept. -/
def ps_set_wifi_info (info : WifiInfo) (b : Nat → Nat) : Nat → Nat :=
  ps_seal_checksum (ps_set_wifi_ip_bytes info
    (ps_seal_checksum
      (psUpdate
        (ps_store_string info.sta_pw PS_WIFI_STA_PW_ADDR PS_PW_MAX_LEN
          (ps_store_string info.sta_ssid PS_WIFI_STA_SSID_ADDR PS_SSID_MAX_LEN
            (ps_store_string info.ap_pw PS_WIFI_AP_PW_ADDR PS_PW_MAX_LEN
              (ps_store_string info.ap_ssid PS_WIFI_AP_SSID_ADDR PS_SSID_MAX_LEN b))))
        PS_WIFI_EN_ADDR (Nat.land info.flags PS_WIFI_FLAG_MASK))))

/-- `ps_set_gui_state(state)` from ps_utilities.c. -/
def ps_set_gui_state (st : GuiState) (b : Nat → Nat) : Nat → Nat :=
  ps_seal_checksum
    (ps_store_string (get_palette_name st.palette_index)
      PS_PALETTE_NAME_ADDR PS_PALETTE_NAME_LEN
      (psUpdate (psUpdate (psUpdate (psUpdate (psUpdate b
        PS_REC_ARD_EN_ADDR (if st.rec_arducam_enable then 1 else 0))
        PS_REC_LEP_EN_ADDR (if st.rec_lepton_enable then 1 else 0))
        PS_GAIN_MODE_ADDR st.gain_mode)
        PS_REC_INTERVAL_ADDR (st.record_interval % 65536 / 256))
        (PS_REC_INTERVAL_ADDR + 1) (st.record_interval % 256)))

/-- `ps_get_gui_state(state)` from ps_utilities.c — a read that repairs
the shadow buffer (and rewrites the checksum) when the stored recording
interval is illegal or the stored palette name is unknown.  Returns the
read state and the (possibly repaired) buffer. -/
def ps_get_gui_state (b : Nat → Nat) : GuiState × (Nat → Nat) :=
  let ri := b PS_REC_INTERVAL_ADDR % 256 * 256 + b (PS_REC_INTERVAL_ADDR + 1) % 256
  let r1 :=
    match system_get_rec_interval_index ri with
    | some idx => (ri, idx, b, false)
    | none =>
        let v := record_intervals.getD 0 0
        (v, 0,
         psUpdate (psUpdate b PS_REC_INTERVAL_ADDR (v / 256))
           (PS_REC_INTERVAL_ADDR + 1) (v % 256),
         true)
  let r2 :=
    match get_palette_by_name
        (ps_read_cstring r1.2.2.1 PS_PALETTE_NAME_ADDR (PS_PALETTE_NAME_LEN + 1)) with
    | some i => (i, r1.2.2.1, false)
    | none =>
        (0, ps_store_string (get_palette_name 0) PS_PALETTE_NAME_ADDR
              PS_PALETTE_NAME_LEN r1.2.2.1,
         true)
  let bfinal := if r1.2.2.2 || r2.2.2 then ps_seal_checksum r2.2.1 else r2.2.1
  ({ rec_arducam_enable := b PS_REC_ARD_EN_ADDR % 256 ≠ 0,
     rec_lepton_enable := b PS_REC_LEP_EN_ADDR % 256 ≠ 0,
     gain_mode := b PS_GAIN_MODE_ADDR % 256,
     record_interval := r1.1,
     record_interval_index := r1.2.1,
     palette_index := r2.1 },
   bfinal)

/-- The version-1 (non-upgrade) head of `ps_init_array`: zero the buffer
and load the magic word, layout version, record-enable, Wi-Fi enable flag
and the default AP SSID/password.  `def_ssid` is the `firecam-XXXX`
string the source derives from the soft-AP MAC address. -/
def ps_init_array_v1 (def_ssid : List Nat) : Nat → Nat :=
  ps_store_string [] PS_WIFI_AP_PW_ADDR PS_PW_MAX_LEN
    (ps_store_string def_ssid PS_WIFI_AP_SSID_ADDR PS_SSID_MAX_LEN
      (psUpdate (psUpdate (psUpdate (psUpdate (psUpdate (fun _ => 0)
        PS_MAGIC_WORD_0_ADDR PS_MAGIC_WORD_0)
        PS_MAGIC_WORD_1_ADDR PS_MAGIC_WORD_1)
        PS_LAYOUT_VERSION_ADDR PS_LAYOUT_VERSION)
        PS_REC_EN_ADDR 0)
        PS_WIFI_EN_ADDR 0x01))

/-- The common tail of `ps_init_array`: default values for the version-2
fields, then the checksum. -/
def ps_init_array_tail (b : Nat → Nat) : Nat → Nat :=
  ps_seal_checksum
    (psUpdate (psUpdate
      (ps_store_string (("Fusion".toList.map Char.toNat))
        PS_PALETTE_NAME_ADDR PS_PALETTE_NAME_LEN
        (psUpdate (psUpdate (psUpdate
          (psUpdate (psUpdate (psUpdate (psUpdate
            (psUpdate (psUpdate (psUpdate (psUpdate
              (ps_store_string [] PS_WIFI_STA_PW_ADDR PS_PW_MAX_LEN
                (ps_store_string [] PS_WIFI_STA_SSID_ADDR PS_SSID_MAX_LEN b))
              (PS_WIFI_AP_IP_ADDR + 3) 192)
              (PS_WIFI_AP_IP_ADDR + 2) 168)
              (PS_WIFI_AP_IP_ADDR + 1) 4)
              (PS_WIFI_AP_IP_ADDR + 0) 1)
            (PS_WIFI_STA_IP_ADDR + 3) 192)
            (PS_WIFI_STA_IP_ADDR + 2) 168)
            (PS_WIFI_STA_IP_ADDR + 1) 4)
            (PS_WIFI_STA_IP_ADDR + 0) 2)
          PS_REC_ARD_EN_ADDR 1)
          PS_REC_LEP_EN_ADDR 1)
          PS_GAIN_MODE_ADDR LEP_DEF_GAIN_MODE))
      PS_REC_INTERVAL_ADDR 0)
      (PS_REC_INTERVAL_ADDR + 1) 1)

/-- `ps_init_array(upgrade)` from ps_utilities.c. -/
def ps_init_array (upgrade : Bool) (def_ssid : List Nat)
    (prior : Nat → Nat) : Nat → Nat :=
  if upgrade then
    ps_init_array_tail (psUpdate prior PS_LAYOUT_VERSION_ADDR PS_LAYOUT_VERSION)
  else
    ps_init_array_tail (ps_init_array_v1 def_ssid)

/-- `ps_valid_magic_word()` from ps_utilities.c. -/
def ps_valid_magic_word (b : Nat → Nat) : Bool :=
  b PS_MAGIC_WORD_0_ADDR % 256 = PS_MAGIC_WORD_0 ∧
  b PS_MAGIC_WORD_1_ADDR % 256 = PS_MAGIC_WORD_1

/-- `ps_init()` from ps_utilities.c: `prior` is the array read from the
RTC SRAM.  Invalid magic word or checksum reinitialises the whole store
from defaults; a valid version-1 store is upgraded in place; otherwise
the store is kept as read. -/
def ps_init (prior : Nat → Nat) (def_ssid : List Nat) : Nat → Nat :=
  if ps_valid_magic_word prior = false ∨
     ps_compute_checksum prior ≠ prior PS_CHECKSUM_ADDR % 256 then
    ps_init_array false def_ssid prior
  else if prior PS_LAYOUT_VERSION_ADDR % 256 = 1 then
    ps_init_array true def_ssid prior
  else prior

/-- The three explicit save operations of the persistent store. -/
inductive PsOp
  | recEnable (en : Bool)
  | wifi (info : WifiInfo)
  | gui (st : GuiState)

/-- Application of one save operation to the shadow buffer. -/
def ps_apply : PsOp → (Nat → Nat) → (Nat → Nat)
  | .recEnable en, b => ps_set_rec_enable en b
  | .wifi info, b => ps_set_wifi_info info b
  | .gui st, b => ps_set_gui_state st b

/-- The store invariant of claim C7: checksum closure (the sum of all
bytes below the checksum address, mod 256, equals the checksum byte) and
the magic word at the first two bytes. -/
def PsInv (b : Nat → Nat) : Prop :=
  b PS_CHECKSUM_ADDR % 256 = ps_compute_checksum b ∧
  b PS_MAGIC_WORD_0_ADDR % 256 = PS_MAGIC_WORD_0 ∧
  b PS_MAGIC_WORD_1_ADDR % 256 = PS_MAGIC_WORD_1

/-- The store produced by a cold boot over zeroed SRAM (empty default
SSID; the SSID contents are irrelevant to the claims that use this). -/
def psDefaultStore : Nat → Nat := ps_init_array false [] (fun _ => 0)

/-- A store that passes the boot-time magic/checksum validation but holds
the illegal recording interval 0: the default store with the interval low
byte zeroed and the checksum resealed. -/
def psCorruptStore : Nat → Nat :=
  ps_seal_checksum (psUpdate psDefaultStore (PS_REC_INTERVAL_ADDR + 1) 0)

/-! ### IP address rendering and parsing: `json_utilities.c`

Strings are byte lists of character codes ('0'..'9' = 48..57, '.' = 46). -/

/-- Decimal rendering of one octet, as `sprintf("%d", …)` produces it.
The fuel argument makes the recursion structural; `n` itself is always
enough fuel. -/
def natToDecAux : Nat → Nat → List Nat
  | 0, n => [48 + n % 10]
  | fuel + 1, n =>
      if n < 10 then [48 + n] else natToDecAux fuel (n / 10) ++ [48 + n % 10]

/-- Decimal digit-character list of `n`. -/
def natToDec (n : Nat) : List Nat := natToDecAux n n

/-- The IP-address rendering of `json_get_wifi` (json_utilities.c):
`sprintf(ip_string, "%d.%d.%d.%d", ip[3], ip[2], ip[1], ip[0])` — array
index 3 is printed first. -/
def json_render_ip (ip : List Nat) : List Nat :=
  natToDec (ip.getD 3 0) ++
    (46 :: (natToDec (ip.getD 2 0) ++
      (46 :: (natToDec (ip.getD 1 0) ++
        (46 :: natToDec (ip.getD 0 0))))))

/-- The character loop of `json_ip_string_to_array`: `i` is the array
index currently accumulated into (starting at 3); a '.' moves to the next
lower index (zeroing it), a digit multiplies-and-adds into the `uint8_t`
cell (mod 256), anything else is an illegal character.  `none` models the
source's `return false`. -/
def ipParseGo (arr : List Nat) (i : Nat) : List Nat → Option (List Nat)
  | [] => some arr
  | c :: rest =>
      if c = 46 then
        if i = 0 then none
        else ipParseGo (arr.set (i - 1) 0) (i - 1) rest
      else if 48 ≤ c ∧ c ≤ 57 then
        ipParseGo (arr.set i ((arr.getD i 0 * 10 + (c - 48)) % 256)) i rest
      else none

/-- `json_ip_string_to_array(ip_array, ip_string)` from json_utilities.c:
octets are consumed left-to-right into indices [3], [2], [1], [0] of the
caller's array (`ip_array[3]` is zeroed on entry). -/
def json_ip_string_to_array (ip_array : List Nat) (ip_string : List Nat) :
    Option (List Nat) :=
  ipParseGo (ip_array.set 3 0) 3 ip_string

end Firecam

namespace Firecam

/-! ### Theorems for claims C1-C3 -/

/-- Claim C1, counterexample: with both imagers RECEIVED, recording active,
a file image send pending, and a remote image request pending with no
response send pending, the specification's readiness condition holds (a
pending remote request), yet `app_task` does not run frame assembly: the
second disjunct of the early-exit condition requires `!app_recording`. -/
theorem claim_C1_counterexample :
    spec_consumer_ready true true true false = true ∧
    (app_task_wait_image .received .received 0 true true true false).1 = none := by
  constructor
  · rfl
  · rfl

/-- Claim C1 (amended): in WaitImage with both imagers RECEIVED, frame
assembly runs immediately exactly when the file recorder has no pending
image while recording, or (only when not recording) a remote image request
is pending with no response send pending; when it runs it processes both
images, and the state machine returns to WaitTOS either way. -/
theorem claim_C1_amended (cam lep : ImgReqState) (msec : Nat)
    (r fp cq cp : Bool) (hcam : cam = .received) (hlep : lep = .received) :
    ((app_task_wait_image cam lep msec r fp cq cp).1 ≠ none ↔
      ((!fp && r) || (!r && !cp && cq)) = true) ∧
    ((app_task_wait_image cam lep msec r fp cq cp).1 ≠ none →
      (app_task_wait_image cam lep msec r fp cq cp).1 = some (true, true)) ∧
    (app_task_wait_image cam lep msec r fp cq cp).2 = .waitTOS := by
  subst hcam hlep
  unfold app_task_wait_image
  rw [if_pos ⟨rfl, rfl⟩]
  by_cases h : ((!fp && r) || (!r && !cp && cq)) = true
  · rw [if_pos h]
    refine ⟨⟨fun _ => h, fun _ => by simp⟩, fun _ => rfl, rfl⟩
  · rw [if_neg h]
    exact ⟨⟨fun hc => absurd rfl hc, fun hc => absurd hc h⟩,
           fun hc => absurd rfl hc, rfl⟩

/-- Claim C1 witness: concrete instance of the amended theorem (recording
with the file recorder idle: assembly runs). -/
theorem claim_C1_witness :
    ((app_task_wait_image .received .received 100 true false false false).1 ≠ none ↔
      ((!false && true) || (!true && !false && false)) = true) ∧
    ((app_task_wait_image .received .received 100 true false false false).1 ≠ none →
      (app_task_wait_image .received .received 100 true false false false).1 =
        some (true, true)) ∧
    (app_task_wait_image .received .received 100 true false false false).2 = .waitTOS :=
  claim_C1_amended .received .received 100 true false false false rfl rfl

/-- Claim C2, counterexample: at the 800 ms deadline with neither image
received, no recording active and no remote request pending, `app_task`
does not run frame assembly (the source guards the deadline-time
`app_process_images` call with `app_recording || cmd_requesting_image`),
contradicting "for every such cycle, regardless of whether recording is
active or a remote image request is pending". -/
theorem claim_C2_counterexample :
    (app_task_wait_image .failed .failed APP_MAX_WAIT_MSEC
       false false false false).1 = none ∧
    (app_task_wait_image .failed .failed APP_MAX_WAIT_MSEC
       false false false false).2 = .waitTOS := by
  exact ⟨rfl, rfl⟩

/-- Claim C2 (amended): in WaitImage, when not both imagers have reported
RECEIVED (that case exits the state earlier) and the elapsed counter has
reached `APP_MAX_WAIT_MSEC`, the state machine returns to WaitTOS, and
frame assembly is run with the per-imager RECEIVED flags if and only if
recording is active or a remote image request is pending. -/
theorem claim_C2_amended (cam lep : ImgReqState) (msec : Nat)
    (r fp cq cp : Bool) (hnot : ¬(cam = .received ∧ lep = .received))
    (hms : msec ≥ APP_MAX_WAIT_MSEC) :
    ((app_task_wait_image cam lep msec r fp cq cp).1 =
      if (r || cq) = true then some (decide (cam = .received), decide (lep = .received))
      else none) ∧
    (app_task_wait_image cam lep msec r fp cq cp).2 = .waitTOS := by
  unfold app_task_wait_image
  rw [if_neg hnot, if_pos hms]
  by_cases h : (r || cq) = true
  · rw [if_pos h]
    exact ⟨rfl, rfl⟩
  · rw [if_neg h]
    exact ⟨rfl, rfl⟩

/-- Claim C2 witness: concrete instance of the amended theorem (recording
active, only the visual image arrived). -/
theorem claim_C2_witness :
    ((app_task_wait_image .received .failed 800 true false false false).1 =
      if (true || false) = true
      then some (decide ((ImgReqState.received : ImgReqState) = .received),
                 decide ((ImgReqState.failed : ImgReqState) = .received))
      else none) ∧
    (app_task_wait_image .received .failed 800 true false false false).2 = .waitTOS :=
  claim_C2_amended .received .failed 800 true false false false
    (by intro h; exact absurd h.2 (by decide)) (by decide)

/-- Claim C3: the persistent "was recording" flag is set on entering
RECORDING (the `APP_NOTIFY_RECORD_START` handler — at every prior state,
whatever the flag held before), cleared on every clean stop from the
recording state (record button, remote stop command, shutdown) without
rebooting, left exactly as it was (hence set) on a file-write-failure
stop, which reboots the device, and at boot a set flag makes the
orchestrator send itself a start-record notification (an unset flag sends
nothing). -/
theorem claim_C3_recording_flag :
    (∀ s : RecState,
      (app_task_handle_rec_notification .recordStart s).psRecEnable = true ∧
      (app_task_handle_rec_notification .recordStart s).app_recording = true) ∧
    (∀ s : RecState, s.app_recording = true →
      ∀ e, e = RecNotify.recordBtn ∨ e = RecNotify.stopRecord ∨ e = RecNotify.shutdown →
        (app_task_handle_rec_notification e s).psRecEnable = false ∧
        (app_task_handle_rec_notification e s).app_recording = false ∧
        (app_task_handle_rec_notification e s).rebooted = s.rebooted) ∧
    (∀ s : RecState, s.app_recording = true →
      (app_task_handle_rec_notification .recordFail s).psRecEnable = s.psRecEnable ∧
      (app_task_handle_rec_notification .recordFail s).app_recording = false ∧
      (app_task_handle_rec_notification .recordFail s).rebooted = true) ∧
    app_task_boot_signals true = [.startRecord] ∧
    app_task_boot_signals false = [] := by
  refine ⟨fun s => ⟨rfl, rfl⟩, ?_, ?_, rfl, rfl⟩
  · intro s hrec e he
    rcases he with h | h | h <;> subst h <;>
      simp [app_task_handle_rec_notification, app_task_stop_recording, hrec]
  · intro s hrec
    simp [app_task_handle_rec_notification, app_task_stop_recording, hrec]

/-- Helper: the lepton service loop sends exactly one terminal signal per
request, `frame` exactly when some of the remaining attempts succeeds and
`fail` exactly when they all fail. -/
theorem lep_task_loop_spec (attempts : Nat → Bool) :
    ∀ fuel k, k + fuel = 36 → 0 < fuel →
      ((lep_task_loop attempts k fuel = [.frame] ↔
         ∃ j, k ≤ j ∧ j < 36 ∧ attempts j = true) ∧
       (lep_task_loop attempts k fuel = [.fail] ↔
         ∀ j, k ≤ j → j < 36 → attempts j = false)) := by
  intro fuel
  induction fuel with
  | zero => intro k _ hf; exact absurd hf (by omega)
  | succ fuel ih =>
    intro k hk _
    unfold lep_task_loop
    by_cases ha : attempts k
    · rw [if_pos ha]
      constructor
      · constructor
        · intro _; exact ⟨k, le_refl k, by omega, ha⟩
        · intro _; rfl
      · constructor
        · intro h; exact absurd h (by simp)
        · intro h; exact absurd ha (by simp [h k (le_refl k) (by omega)])
    · rw [if_neg ha]
      by_cases hlast : k + 1 = 36
      · rw [if_pos hlast]
        constructor
        · constructor
          · intro h; exact absurd h (by simp)
          · intro ⟨j, hkj, hj36, haj⟩
            have : j = k := by omega
            subst this
            exact absurd haj (by simp [ha])
        · constructor
          · intro _ j hkj hj36
            have : j = k := by omega
            subst this
            simp at ha
            exact ha
          · intro _; rfl
      · rw [if_neg hlast]
        have hrec := ih (k + 1) (by omega) (by omega)
        constructor
        · rw [hrec.1]
          constructor
          · intro ⟨j, hkj, hj, haj⟩; exact ⟨j, by omega, hj, haj⟩
          · intro ⟨j, hkj, hj, haj⟩
            refine ⟨j, ?_, hj, haj⟩
            rcases Nat.eq_or_lt_of_le hkj with h | h
            · subst h; exact absurd haj (by simp [ha])
            · omega
        · rw [hrec.2]
          constructor
          · intro h j hkj hj36
            rcases Nat.eq_or_lt_of_le hkj with he | he
            · subst he; simp at ha; exact ha
            · exact h j (by omega) hj36
          · intro h j hkj hj36; exact h j (by omega) hj36

/-- Claim C4: each imager driver sends `app_task` exactly one terminal
signal per requested frame.  The thermal driver reports `frame` exactly
when one of its first 36 vertical-sync attempts yields a complete frame
and `fail` exactly when all 36 fail; the visual driver reports `fail`
exactly when the transferred JPEG length is zero. -/
theorem claim_C4_one_terminal_signal :
    (∀ attempts : Nat → Bool,
      (lep_task_request attempts).length = 1 ∧
      (lep_task_request attempts = [.frame] ↔
        ∃ k, k < 36 ∧ attempts k = true) ∧
      (lep_task_request attempts = [.fail] ↔
        ∀ k, k < 36 → attempts k = false)) ∧
    (∀ (captureDone : Nat → Bool) (transfer_len : Nat),
      (cam_task_request captureDone transfer_len).signals.length = 1 ∧
      ((cam_task_request captureDone transfer_len).signals = [.fail] ↔
        transfer_len = 0)) := by
  constructor
  · intro attempts
    have hspec := lep_task_loop_spec attempts 36 0 (by omega) (by omega)
    refine ⟨?_, ?_, ?_⟩
    · by_cases h : ∃ j, 0 ≤ j ∧ j < 36 ∧ attempts j = true
      · rw [show lep_task_request attempts = [.frame] from hspec.1.mpr h]; rfl
      · have hall : ∀ j, 0 ≤ j → j < 36 → attempts j = false := by
          intro j _ hj
          by_contra hc
          exact h ⟨j, Nat.zero_le j, hj, by simpa using hc⟩
        rw [show lep_task_request attempts = [.fail] from hspec.2.mpr hall]; rfl
    · rw [show lep_task_request attempts = lep_task_loop attempts 0 36 from rfl,
          hspec.1]
      constructor
      · intro ⟨j, _, hj, ha⟩; exact ⟨j, hj, ha⟩
      · intro ⟨j, hj, ha⟩; exact ⟨j, Nat.zero_le j, hj, ha⟩
    · rw [show lep_task_request attempts = lep_task_loop attempts 0 36 from rfl,
          hspec.2]
      constructor
      · intro h k hk; exact h k (Nat.zero_le k) hk
      · intro h k _ hk; exact h k hk
  · intro captureDone transfer_len
    by_cases h : transfer_len = 0
    · simp [cam_task_request, h]
    · simp [cam_task_request, h]

/-- Claim C10: in `cam_task`, expiry of the capture-complete polling
deadline does not by itself produce a failure signal: the signalled
outcome is the same for every polled bit sequence (including one that
never reports capture-complete), the FIFO transfer is always performed
between taking and releasing the VSPI bus lock, and success is signalled
exactly when the transferred length is nonzero. -/
theorem claim_C10_late_capture_is_success :
    ∀ (cd cd2 : Nat → Bool) (transfer_len : Nat),
      (cam_task_request cd transfer_len).signals =
        (cam_task_request cd2 transfer_len).signals ∧
      ((cam_task_request cd transfer_len).signals = [.frame] ↔ transfer_len ≠ 0) ∧
      (cam_task_request cd transfer_len).actions =
        [.capture, .lockVspi, .transferJpeg, .unlockVspi] := by
  intro cd cd2 transfer_len
  refine ⟨rfl, ?_, rfl⟩
  by_cases h : transfer_len = 0
  · simp [cam_task_request, h]
  · simp [cam_task_request, h]

/-- Claim C3 witness: the clean-stop and failure-stop conjuncts applied
at the concrete state reached right after recording has started (flag
set, recording active). -/
theorem claim_C3_witness :
    ((app_task_handle_rec_notification .recordBtn
        ⟨true, true, 1, 0, false⟩).psRecEnable = false ∧
     (app_task_handle_rec_notification .recordBtn
        ⟨true, true, 1, 0, false⟩).app_recording = false ∧
     (app_task_handle_rec_notification .recordBtn
        ⟨true, true, 1, 0, false⟩).rebooted =
       (⟨true, true, 1, 0, false⟩ : RecState).rebooted) ∧
    ((app_task_handle_rec_notification .recordFail
        ⟨true, true, 1, 0, false⟩).psRecEnable =
       (⟨true, true, 1, 0, false⟩ : RecState).psRecEnable ∧
     (app_task_handle_rec_notification .recordFail
        ⟨true, true, 1, 0, false⟩).app_recording = false ∧
     (app_task_handle_rec_notification .recordFail
        ⟨true, true, 1, 0, false⟩).rebooted = true) :=
  ⟨claim_C3_recording_flag.2.1 ⟨true, true, 1, 0, false⟩ rfl
     .recordBtn (Or.inl rfl),
   claim_C3_recording_flag.2.2.1 ⟨true, true, 1, 0, false⟩ rfl⟩

/-- Helper: pointwise description of the copy loop of
`copy_packet_to_buffer`: after copying `count` words starting at word
index `j`, position `idx` holds the packet word for `idx - base` when
`idx` lies in the written interval and is unchanged otherwise. -/
theorem copy_packet_loop_apply (base : Nat) (pkt : Nat → Nat) :
    ∀ (count j : Nat) (buf : Nat → Nat) (idx : Nat),
      copy_packet_loop base pkt j buf count idx =
        if base + j ≤ idx ∧ idx < base + j + count then
          lepPacketWord pkt (idx - base)
        else buf idx := by
  intro count
  induction count with
  | zero =>
    intro j buf idx
    rw [if_neg (by omega)]
    rfl
  | succ count ih =>
    intro j buf idx
    rw [show copy_packet_loop base pkt j buf (count + 1) =
          copy_packet_loop base pkt (j + 1)
            (lepWrite buf (base + j) (lepPacketWord pkt j)) count from rfl,
        ih (j + 1)]
    by_cases hidx : idx = base + j
    · subst hidx
      rw [if_neg (by omega), if_pos (by omega)]
      simp [lepWrite, Nat.add_sub_cancel_left]
    · by_cases h2 : base + (j + 1) ≤ idx ∧ idx < base + (j + 1) + count
      · rw [if_pos h2, if_pos (by omega)]
      · rw [if_neg h2, if_neg (by omega)]
        simp [lepWrite, hidx]

/-- Helper: the buffer produced by the copy-and-complete phase is the
copied buffer whenever the acceptance condition holds. -/
theorem vospi_copy_and_complete_buf (p : VospiState × Bool) (line : Nat)
    (pkt : Nat → Nat) (buf : Nat → Nat)
    (hacc : ((p.2 || p.1.validSegmentRegion) && decide (line ≤ 59)) = true) :
    (vospi_copy_and_complete p line pkt buf).buf =
      copy_packet_to_buffer p.1.curSegment line pkt buf := by
  unfold vospi_copy_and_complete
  simp only [hacc, if_true]
  split_ifs <;> rfl

/-- Claim C5: a valid (non-discard, non-repeated-line) packet accepted
while collecting segment `s ∈ 1..4` with line number `line ≤ 59` has its
payload bytes 4..163 stored as 80 big-endian 16-bit words starting at
word offset `(s-1)*30*160 + line*80` of the thermal frame buffer, leaving
every other buffer word unchanged — each packet fills exactly half of one
160-pixel row.  `s` is `curSegment` after the line-20 segment check of the
same loop iteration, and acceptance is the source's
`(beforeValidData || validSegmentRegion)` test. -/
theorem claim_C5_packet_copy (st : VospiState) (bv : Bool) (prevLine : Nat)
    (pkt : Nat → Nat) (buf : Nat → Nat) (s line : Nat)
    (hline_def : line = pkt 1 % 256)
    (hs_def : s = (vospi_check_line20 st bv line (pkt 0 % 256 / 16)).1.curSegment)
    (hvalid : pkt 0 % 16 ≠ 15)
    (hline : line ≤ 59) (hprev : line ≠ prevLine)
    (hs1 : 1 ≤ s) (hs4 : s ≤ 4)
    (hacc : ((vospi_check_line20 st bv line (pkt 0 % 256 / 16)).2 ||
             (vospi_check_line20 st bv line
               (pkt 0 % 256 / 16)).1.validSegmentRegion) = true) :
    (∀ j, j < 80 →
      (vospi_process_packet st bv prevLine pkt buf).buf
          ((s - 1) * 30 * 160 + line * 80 + j) = lepPacketWord pkt j) ∧
    (∀ idx, idx < (s - 1) * 30 * 160 + line * 80 ∨
            (s - 1) * 30 * 160 + line * 80 + 80 ≤ idx →
      (vospi_process_packet st bv prevLine pkt buf).buf idx = buf idx) := by
  subst hline_def
  have hbuf : (vospi_process_packet st bv prevLine pkt buf).buf =
      copy_packet_to_buffer s (pkt 1 % 256) pkt buf := by
    unfold vospi_process_packet
    rw [if_neg hvalid, if_neg hprev,
        vospi_copy_and_complete_buf _ _ _ _ (by simp [hacc, hline]), ← hs_def]
  rw [hbuf]
  have hchar : ∀ idx, copy_packet_to_buffer s (pkt 1 % 256) pkt buf idx =
      if (s - 1) * 30 * 160 + pkt 1 % 256 * 80 ≤ idx ∧
         idx < (s - 1) * 30 * 160 + pkt 1 % 256 * 80 + 80 then
        lepPacketWord pkt (idx - ((s - 1) * 30 * 160 + pkt 1 % 256 * 80))
      else buf idx := by
    intro idx
    have := copy_packet_loop_apply ((s - 1) * 30 * LEP_WIDTH +
      pkt 1 % 256 * (LEP_WIDTH / 2)) pkt ((LEP_PKT_LENGTH - 4) / 2) 0 buf idx
    unfold copy_packet_to_buffer
    rw [this]
    norm_num [LEP_WIDTH, LEP_PKT_LENGTH]
  constructor
  · intro j hj
    rw [hchar, if_pos (by omega), Nat.add_sub_cancel_left]
  · intro idx hidx
    rw [hchar, if_neg (by omega)]

/-- Claim C5 witness: concrete instance — a line-1 packet in the
provisional (before-valid-data) region of segment 1 writes word offsets
80..159 with the big-endian payload words and leaves the rest of the
buffer unchanged. -/
theorem claim_C5_witness :
    (∀ j, j < 80 →
      (vospi_process_packet ⟨1, false⟩ true 255 (fun i => i) (fun _ => 0)).buf
          ((1 - 1) * 30 * 160 + 1 * 80 + j) = lepPacketWord (fun i => i) j) ∧
    (∀ idx, idx < (1 - 1) * 30 * 160 + 1 * 80 ∨
            (1 - 1) * 30 * 160 + 1 * 80 + 80 ≤ idx →
      (vospi_process_packet ⟨1, false⟩ true 255 (fun i => i) (fun _ => 0)).buf idx = 0) :=
  claim_C5_packet_copy ⟨1, false⟩ true 255 (fun i => i) (fun _ => 0) 1 1
    (by decide) (by decide) (by decide) (by decide) (by decide)
    (by decide) (by decide) (by decide)

/-- Helper: when `in_buffer` reports a location, the buffer holds the
searched byte there. -/
theorem in_buffer_found (buf : Nat → Nat) (push c : Nat) :
    ∀ fuel i k, in_buffer buf push c i fuel = some k → buf k = c := by
  intro fuel
  induction fuel with
  | zero => intro i k h; exact absurd h (by simp [in_buffer])
  | succ fuel ih =>
    intro i k h
    rw [in_buffer] at h
    by_cases hp : i = push
    · rw [if_pos hp] at h; exact absurd h (by simp)
    · rw [if_neg hp] at h
      by_cases hc : buf i = c
      · rw [if_pos hc] at h
        cases h
        exact hc
      · rw [if_neg hc] at h
        exact ih (in_buffer_next i) k h

/-- Helper: numeric value of the receive-buffer length. -/
theorem CMD_RX_LEN_eq : CMD_MAX_TCP_RX_BUFFER_LEN = 1024 := rfl

/-- Helper: numeric value of the command-string capacity. -/
theorem JSON_CMD_LEN_eq : JSON_MAX_CMD_TEXT_LEN = 256 := rfl

/-- Helper: the scan of `in_buffer` never moves past index 1024, so a
reported location is at most 1024. -/
theorem in_buffer_le (buf : Nat → Nat) (push c : Nat) :
    ∀ fuel i k, i ≤ 1024 → in_buffer buf push c i fuel = some k → k ≤ 1024 := by
  intro fuel
  induction fuel with
  | zero => intro i k _ h; exact absurd h (by simp [in_buffer])
  | succ fuel ih =>
    intro i k hi h
    rw [in_buffer] at h
    by_cases hp : i = push
    · rw [if_pos hp] at h; exact absurd h (by simp)
    · rw [if_neg hp] at h
      by_cases hc : buf i = c
      · rw [if_pos hc] at h; cases h; exact hi
      · rw [if_neg hc] at h
        refine ih (in_buffer_next i) k ?_ h
        unfold in_buffer_next
        rw [CMD_RX_LEN_eq]
        split <;> omega

/-- Helper: when the searched byte differs from the out-of-range byte at
index 1024, a reported location lies inside the array. -/
theorem in_buffer_found_lt (buf : Nat → Nat) (push c : Nat)
    (hphantom : buf 1024 ≠ c) (fuel i k : Nat) (hi : i ≤ 1024)
    (h : in_buffer buf push c i fuel = some k) : k < 1024 := by
  have hle := in_buffer_le buf push c fuel i k hi h
  have hbyte := in_buffer_found buf push c fuel i k h
  rcases Nat.lt_or_ge k 1024 with hk | hk
  · exact hk
  · have : k = 1024 := by omega
    subst this
    exact absurd hbyte hphantom

/-- Helper: the pop-index advance stays inside the array. -/
theorem rx_pop_next_lt (p : Nat) (hp : p < 1024) : rx_pop_next p < 1024 := by
  unfold rx_pop_next
  rw [CMD_RX_LEN_eq]
  split <;> omega

/-- Helper: each pop advance decreases the circular distance to a target
by one. -/
theorem rx_pop_next_dist (target p : Nat) (htar : target < 1024)
    (hp : p < 1024) (hne : p ≠ target) :
    (target + 1024 - rx_pop_next p) % 1024 + 1 = (target + 1024 - p) % 1024 := by
  unfold rx_pop_next
  rw [CMD_RX_LEN_eq]
  split <;> omega

/-- Helper: the pop-advance loops of `process_rx_data` reach their target
whenever the fuel covers the circular distance. -/
theorem rx_skip_to_reaches (target : Nat) (htar : target < 1024) :
    ∀ fuel p, p < 1024 → (target + 1024 - p) % 1024 < fuel →
      rx_skip_to target p fuel = target := by
  intro fuel
  induction fuel with
  | zero => intro p _ h; omega
  | succ fuel ih =>
    intro p hp hd
    rw [rx_skip_to]
    by_cases hpt : p = target
    · rw [if_pos hpt]; exact hpt
    · rw [if_neg hpt]
      refine ih (rx_pop_next p) (rx_pop_next_lt p hp) ?_
      have := rx_pop_next_dist target p htar hp hpt
      omega

/-- Helper: full description of the copy loop of `process_rx_data`: it
runs for exactly the circular distance from the start position to the
end index, stops at the end index, and collects the window it walks
(storing only the first 256 bytes). -/
theorem rx_copy_loop_spec (buf : Nat → Nat) (endIdx : Nat) (hend : endIdx < 1024) :
    ∀ d : Nat, ∀ (fuel p i : Nat) (acc : List Nat),
      p < 1024 → (endIdx + 1024 - p) % 1024 = d → d < fuel → i + d ≤ 1024 →
      rx_copy_loop buf endIdx p i acc fuel =
        (i + d, endIdx, acc ++ rx_window buf p (min d (256 - i))) := by
  intro d
  induction d with
  | zero =>
    intro fuel p i acc hp hd hf _
    have hpe : p = endIdx := by omega
    cases fuel with
    | zero => omega
    | succ fuel =>
      rw [rx_copy_loop, if_pos (Or.inl hpe)]
      subst hpe
      simp [rx_window]
  | succ d ih =>
    intro fuel p i acc hp hd hf hi
    have hpe : p ≠ endIdx := by omega
    cases fuel with
    | zero => omega
    | succ fuel =>
      have hstep : rx_copy_loop buf endIdx p i acc (fuel + 1) =
          rx_copy_loop buf endIdx (rx_pop_next p) (i + 1)
            (acc ++ if i < JSON_MAX_CMD_TEXT_LEN then [buf p] else []) fuel := by
        rw [rx_copy_loop, if_neg]
        push_neg
        exact ⟨hpe, by rw [CMD_RX_LEN_eq]; omega⟩
      rw [hstep, ih fuel (rx_pop_next p) (i + 1) _ (rx_pop_next_lt p hp)
            (by have := rx_pop_next_dist endIdx p hend hp hpe; omega)
            (by omega) (by omega)]
      have h1 : i + 1 + d = i + (d + 1) := by omega
      rw [h1]
      by_cases hi256 : i < 256
      · rw [if_pos (by rw [JSON_CMD_LEN_eq]; exact hi256)]
        have hm : min (d + 1) (256 - i) = min d (256 - (i + 1)) + 1 := by omega
        rw [hm, rx_window]
        simp [List.append_assoc]
      · rw [if_neg (by rw [JSON_CMD_LEN_eq]; omega)]
        have hm : min (d + 1) (256 - i) = 0 := by omega
        have hm2 : min d (256 - (i + 1)) = 0 := by omega
        rw [hm, hm2]
        simp [rx_window]

/-- Helper: full description of one scan of `process_rx_data` when both a
stop and a start byte are located in the array: the pop index ends one
past the stop byte, and the window from the start byte to the stop byte
is executed exactly when it is shorter than 257 bytes. -/
theorem process_rx_scan_found (st : RxState) (e b : Nat)
    (hpop : st.pop < 1024)
    (he : in_buffer st.buf st.push CMD_JSON_STRING_STOP st.pop 1026 = some e)
    (hb : in_buffer st.buf st.push CMD_JSON_STRING_START st.pop 1026 = some b)
    (he2 : e < 1024) (hb2 : b < 1024) :
    process_rx_scan st =
      (⟨st.buf, st.push, rx_pop_next e⟩,
       if (e + 1024 - b) % 1024 < 257
       then some (rx_window st.buf b (min ((e + 1024 - b) % 1024) 256))
       else none) := by
  have hmod : (e + 1024 - b) % 1024 < 1024 := Nat.mod_lt _ (by norm_num)
  have hmod2 : (b + 1024 - st.pop) % 1024 < 1024 := Nat.mod_lt _ (by norm_num)
  have hskip : rx_skip_to b st.pop 1025 = b :=
    rx_skip_to_reaches b hb2 1025 st.pop hpop (by omega)
  have hcopy := rx_copy_loop_spec st.buf e he2 ((e + 1024 - b) % 1024) 1025 b 0 []
    hb2 rfl (by omega) (by omega)
  unfold process_rx_scan
  rw [he, hb]
  dsimp only
  rw [hskip, hcopy]
  dsimp only
  by_cases hcond : (e + 1024 - b) % 1024 < 257
  · rw [if_pos (show 0 + (e + 1024 - b) % 1024 < JSON_MAX_CMD_TEXT_LEN + 1 from
          by rw [JSON_CMD_LEN_eq]; omega),
        if_pos hcond]
    simp
  · rw [if_neg (show ¬ 0 + (e + 1024 - b) % 1024 < JSON_MAX_CMD_TEXT_LEN + 1 from
          by rw [JSON_CMD_LEN_eq]; omega),
        if_neg hcond]

/-- Helper: pushing data never moves the pop index. -/
theorem rx_push_data_pop : ∀ (data : List Nat) (st : RxState),
    (rx_push_data st data).pop = st.pop := by
  intro data
  induction data with
  | nil => intro st; rfl
  | cons d rest ih => intro st; rw [rx_push_data]; exact ih _

/-- Helper: pushing data keeps the push index inside the array. -/
theorem rx_push_data_push_lt : ∀ (data : List Nat) (st : RxState),
    st.push < 1024 → (rx_push_data st data).push < 1024 := by
  intro data
  induction data with
  | nil => intro st h; exact h
  | cons d rest ih =>
    intro st h
    rw [rx_push_data]
    refine ih _ ?_
    show (if st.push + 1 ≥ CMD_MAX_TCP_RX_BUFFER_LEN then 0 else st.push + 1) < 1024
    rw [CMD_RX_LEN_eq]
    split <;> omega

/-- Helper: pushing data never writes at or beyond index 1024. -/
theorem rx_push_data_buf_hi : ∀ (data : List Nat) (st : RxState) (j : Nat),
    st.push < 1024 → 1024 ≤ j → (rx_push_data st data).buf j = st.buf j := by
  intro data
  induction data with
  | nil => intro st j _ _; rfl
  | cons d rest ih =>
    intro st j h hj
    rw [rx_push_data]
    rw [ih _ j (by
      show (if st.push + 1 ≥ CMD_MAX_TCP_RX_BUFFER_LEN then 0 else st.push + 1) < 1024
      rw [CMD_RX_LEN_eq]
      split <;> omega) hj]
    show (if j = st.push then d % 256 else st.buf j) = st.buf j
    rw [if_neg (by omega)]

/-- Claim C6: command framing of `process_rx_data`, for every receive
state with in-range indices (and an out-of-range byte that is not a
delimiter, as for the zero-initialised static array) and every pushed
byte stream.
(1) A command is extracted and executed exactly when the scans from the
pop index locate a 0x03 stop byte and a 0x02 start byte whose window is
shorter than 257 bytes; the executed command is precisely that window
(starting at the 0x02), and the pop index resynchronises one past the
stop byte.
(2) Whenever the located window is 257 bytes or longer — in particular
for every JSON payload longer than 256 bytes — no command is executed
and the pop index still resynchronises one past the stop byte.
(3) A located 0x03 with no 0x02 anywhere in the buffered region is
skipped without a command being executed (the model is total, so no
error is raised): the pop index moves to the stray stop byte and
nothing else changes, after which clause (1) applies to later
well-formed commands — the concluding concrete traces run an oversized
drop followed by an executed command, and a stray 0x03 followed by a
well-formed command that is executed on the following data arrival. -/
theorem claim_C6_framing :
    (∀ (st : RxState) (data : List Nat) (cmd : List Nat),
      st.push < 1024 → st.pop < 1024 →
      st.buf 1024 ≠ CMD_JSON_STRING_START → st.buf 1024 ≠ CMD_JSON_STRING_STOP →
      ((process_rx_data st data).2 = some cmd ↔
        ∃ e b,
          in_buffer (rx_push_data st data).buf (rx_push_data st data).push
            CMD_JSON_STRING_STOP (rx_push_data st data).pop 1026 = some e ∧
          in_buffer (rx_push_data st data).buf (rx_push_data st data).push
            CMD_JSON_STRING_START (rx_push_data st data).pop 1026 = some b ∧
          (rx_push_data st data).buf e = CMD_JSON_STRING_STOP ∧
          (rx_push_data st data).buf b = CMD_JSON_STRING_START ∧
          (e + 1024 - b) % 1024 < 257 ∧
          cmd = rx_window (rx_push_data st data).buf b
            (min ((e + 1024 - b) % 1024) 256) ∧
          cmd.getD 0 0 = CMD_JSON_STRING_START ∧
          (process_rx_data st data).1.pop = rx_pop_next e)) ∧
    (∀ (st : RxState) (data : List Nat) (e b : Nat),
      st.push < 1024 → st.pop < 1024 →
      st.buf 1024 ≠ CMD_JSON_STRING_START → st.buf 1024 ≠ CMD_JSON_STRING_STOP →
      in_buffer (rx_push_data st data).buf (rx_push_data st data).push
        CMD_JSON_STRING_STOP (rx_push_data st data).pop 1026 = some e →
      in_buffer (rx_push_data st data).buf (rx_push_data st data).push
        CMD_JSON_STRING_START (rx_push_data st data).pop 1026 = some b →
      257 ≤ (e + 1024 - b) % 1024 →
      (process_rx_data st data).2 = none ∧
      (process_rx_data st data).1.pop = rx_pop_next e) ∧
    (∀ (st : RxState) (data : List Nat) (e : Nat),
      st.push < 1024 → st.pop < 1024 →
      st.buf 1024 ≠ CMD_JSON_STRING_STOP →
      in_buffer (rx_push_data st data).buf (rx_push_data st data).push
        CMD_JSON_STRING_STOP (rx_push_data st data).pop 1026 = some e →
      in_buffer (rx_push_data st data).buf (rx_push_data st data).push
        CMD_JSON_STRING_START (rx_push_data st data).pop 1026 = none →
      (process_rx_data st data).2 = none ∧
      (process_rx_data st data).1 =
        ⟨(rx_push_data st data).buf, (rx_push_data st data).push, e⟩) ∧
    ((process_rx_data rx_init_state
        ([2] ++ List.replicate 260 97 ++ [3])).2 = none ∧
     (process_rx_data
        (process_rx_data rx_init_state
          ([2] ++ List.replicate 260 97 ++ [3])).1
        [2, 123, 125, 3]).2 = some [2, 123, 125]) ∧
    ((process_rx_data rx_init_state [88, 3]).2 = none ∧
     (process_rx_data (process_rx_data rx_init_state [88, 3]).1
        [2, 123, 125, 3]).2 = none ∧
     (process_rx_data
        (process_rx_data (process_rx_data rx_init_state [88, 3]).1
          [2, 123, 125, 3]).1 [90]).2 = some [2, 123, 125]) := by
  refine ⟨?_, ?_, ?_, ⟨by decide, by decide⟩, ⟨by decide, by decide, by decide⟩⟩
  · intro st data cmd hpush hpop hph2 hph3
    have hS_pop : (rx_push_data st data).pop = st.pop := rx_push_data_pop data st
    have hS_hi : (rx_push_data st data).buf 1024 = st.buf 1024 :=
      rx_push_data_buf_hi data st 1024 hpush (le_refl _)
    constructor
    · intro h
      unfold process_rx_data process_rx_scan at h
      rcases h3 : in_buffer (rx_push_data st data).buf (rx_push_data st data).push
          CMD_JSON_STRING_STOP (rx_push_data st data).pop 1026 with _ | e
      · rw [h3] at h; exact absurd h (by simp)
      rcases h2 : in_buffer (rx_push_data st data).buf (rx_push_data st data).push
          CMD_JSON_STRING_START (rx_push_data st data).pop 1026 with _ | b
      · rw [h3, h2] at h; exact absurd h (by simp)
      have he2 : e < 1024 := in_buffer_found_lt _ _ _ (by rw [hS_hi]; exact hph3)
        1026 _ e (by omega) h3
      have hb2 : b < 1024 := in_buffer_found_lt _ _ _ (by rw [hS_hi]; exact hph2)
        1026 _ b (by omega) h2
      have hmaster := process_rx_scan_found (rx_push_data st data) e b
        (by rw [hS_pop]; exact hpop) h3 h2 he2 hb2
      have h' : (process_rx_scan (rx_push_data st data)).2 = some cmd := h
      rw [hmaster] at h'
      by_cases hcond : (e + 1024 - b) % 1024 < 257
      · rw [if_pos hcond] at h'
        have hcmd : cmd = rx_window (rx_push_data st data).buf b
            (min ((e + 1024 - b) % 1024) 256) := by
          cases h'; rfl
        have hbbyte : (rx_push_data st data).buf b = CMD_JSON_STRING_START :=
          in_buffer_found _ _ _ _ _ _ h2
        have hebyte : (rx_push_data st data).buf e = CMD_JSON_STRING_STOP :=
          in_buffer_found _ _ _ _ _ _ h3
        have hbe : b ≠ e := by
          intro hbe
          rw [hbe, hebyte] at hbbyte
          exact absurd hbbyte (by decide)
        have hd1 : 1 ≤ (e + 1024 - b) % 1024 := by
          rcases Nat.eq_zero_or_pos ((e + 1024 - b) % 1024) with hz | hpos
          · exact absurd (show b = e by omega) hbe
          · exact hpos
        refine ⟨e, b, rfl, rfl, hebyte, hbbyte, hcond, hcmd, ?_, ?_⟩
        · rw [hcmd]
          rcases hmin : min ((e + 1024 - b) % 1024) 256 with _ | m
          · omega
          · rw [rx_window]
            show (rx_push_data st data).buf b = CMD_JSON_STRING_START
            exact hbbyte
        · show (process_rx_scan (rx_push_data st data)).1.pop = rx_pop_next e
          rw [hmaster]
      · rw [if_neg hcond] at h'
        exact absurd h' (by simp)
    · intro ⟨e, b, h3, h2, hebyte, hbbyte, hcond, hcmd, _, _⟩
      have he2 : e < 1024 := in_buffer_found_lt _ _ _ (by rw [hS_hi]; exact hph3)
        1026 _ e (by omega) h3
      have hb2 : b < 1024 := in_buffer_found_lt _ _ _ (by rw [hS_hi]; exact hph2)
        1026 _ b (by omega) h2
      have hmaster := process_rx_scan_found (rx_push_data st data) e b
        (by rw [hS_pop]; exact hpop) h3 h2 he2 hb2
      show (process_rx_scan (rx_push_data st data)).2 = some cmd
      rw [hmaster]
      simp only [if_pos hcond]
      rw [hcmd]
  · intro st data e b hpush hpop hph2 hph3 h3 h2 hcond
    have hS_pop : (rx_push_data st data).pop = st.pop := rx_push_data_pop data st
    have hS_hi : (rx_push_data st data).buf 1024 = st.buf 1024 :=
      rx_push_data_buf_hi data st 1024 hpush (le_refl _)
    have he2 : e < 1024 := in_buffer_found_lt _ _ _ (by rw [hS_hi]; exact hph3)
      1026 _ e (by omega) h3
    have hb2 : b < 1024 := in_buffer_found_lt _ _ _ (by rw [hS_hi]; exact hph2)
      1026 _ b (by omega) h2
    have hmaster := process_rx_scan_found (rx_push_data st data) e b
      (by rw [hS_pop]; exact hpop) h3 h2 he2 hb2
    constructor
    · show (process_rx_scan (rx_push_data st data)).2 = none
      rw [hmaster]
      simp only [if_neg (by omega : ¬ (e + 1024 - b) % 1024 < 257)]
    · show (process_rx_scan (rx_push_data st data)).1.pop = rx_pop_next e
      rw [hmaster]
  · intro st data e hpush hpop hph3 h3 h2
    have hS_pop : (rx_push_data st data).pop = st.pop := rx_push_data_pop data st
    have hS_hi : (rx_push_data st data).buf 1024 = st.buf 1024 :=
      rx_push_data_buf_hi data st 1024 hpush (le_refl _)
    have he2 : e < 1024 := in_buffer_found_lt _ _ _ (by rw [hS_hi]; exact hph3)
      1026 _ e (by omega) h3
    have hskip : rx_skip_to e (rx_push_data st data).pop 1025 = e :=
      rx_skip_to_reaches e he2 1025 (rx_push_data st data).pop
        (by rw [hS_pop]; exact hpop)
        (by have := Nat.mod_lt (e + 1024 - (rx_push_data st data).pop)
              (show 0 < 1024 by norm_num); omega)
    have hscan : process_rx_scan (rx_push_data st data) =
        (⟨(rx_push_data st data).buf, (rx_push_data st data).push, e⟩, none) := by
      unfold process_rx_scan
      rw [h3, h2]
      dsimp only
      rw [hskip]
    exact ⟨by show (process_rx_scan (rx_push_data st data)).2 = none; rw [hscan],
           by show (process_rx_scan (rx_push_data st data)).1 = _; rw [hscan]⟩

/-- Claim C6 witness: the execution characterisation applied to a
concrete single-command byte stream. -/
theorem claim_C6_witness :
    ∃ e b,
      in_buffer (rx_push_data rx_init_state [2, 123, 3]).buf
        (rx_push_data rx_init_state [2, 123, 3]).push CMD_JSON_STRING_STOP
        (rx_push_data rx_init_state [2, 123, 3]).pop 1026 = some e ∧
      in_buffer (rx_push_data rx_init_state [2, 123, 3]).buf
        (rx_push_data rx_init_state [2, 123, 3]).push CMD_JSON_STRING_START
        (rx_push_data rx_init_state [2, 123, 3]).pop 1026 = some b ∧
      (rx_push_data rx_init_state [2, 123, 3]).buf e = CMD_JSON_STRING_STOP ∧
      (rx_push_data rx_init_state [2, 123, 3]).buf b = CMD_JSON_STRING_START ∧
      (e + 1024 - b) % 1024 < 257 ∧
      [2, 123] = rx_window (rx_push_data rx_init_state [2, 123, 3]).buf b
        (min ((e + 1024 - b) % 1024) 256) ∧
      List.getD [2, 123] 0 0 = CMD_JSON_STRING_START ∧
      (process_rx_data rx_init_state [2, 123, 3]).1.pop = rx_pop_next e :=
  (claim_C6_framing.1 rx_init_state [2, 123, 3] [2, 123]
    (by decide) (by decide) (by decide) (by decide)).mp (by decide)

/-- Helper: a byte write leaves every other address unchanged. -/
theorem psUpdate_apply_ne (b : Nat → Nat) (i v j : Nat) (h : j ≠ i) :
    psUpdate b i v j = b j := if_neg h

/-- Helper: the checksum ignores the checksum byte itself. -/
theorem ps_checksum_update_checksum (b : Nat → Nat) (v : Nat) :
    ps_compute_checksum (psUpdate b PS_CHECKSUM_ADDR v) = ps_compute_checksum b := by
  have h : (List.range PS_CHECKSUM_ADDR).map
        (fun i => psUpdate b PS_CHECKSUM_ADDR v i % 256) =
      (List.range PS_CHECKSUM_ADDR).map (fun i => b i % 256) := by
    apply List.map_congr_left
    intro x hx
    rw [List.mem_range] at hx
    rw [psUpdate_apply_ne _ _ _ _
      (by have he : PS_CHECKSUM_ADDR = 235 := rfl; omega)]
  unfold ps_compute_checksum
  rw [h]

/-- Helper: the checksum is a byte. -/
theorem ps_checksum_lt (b : Nat → Nat) : ps_compute_checksum b < 256 :=
  Nat.mod_lt _ (by norm_num)

/-- Helper: sealing the checksum establishes checksum closure. -/
theorem ps_seal_closure (b : Nat → Nat) :
    ps_seal_checksum b PS_CHECKSUM_ADDR % 256 =
      ps_compute_checksum (ps_seal_checksum b) := by
  unfold ps_seal_checksum
  rw [ps_checksum_update_checksum]
  have h := ps_checksum_lt b
  show (if PS_CHECKSUM_ADDR = PS_CHECKSUM_ADDR then ps_compute_checksum b % 256
        else b PS_CHECKSUM_ADDR) % 256 = ps_compute_checksum b
  rw [if_pos rfl]
  omega

/-- Helper: sealing the checksum does not touch low addresses. -/
theorem ps_seal_low (b : Nat → Nat) (j : Nat) (hj : j < 3) :
    ps_seal_checksum b j = b j := by
  apply psUpdate_apply_ne
  have : PS_CHECKSUM_ADDR = 235 := rfl
  omega

/-- Helper: a byte write at an address at least 3 does not touch low
addresses. -/
theorem psUpdate_low (b : Nat → Nat) (i v j : Nat) (hi : 3 ≤ i) (hj : j < 3) :
    psUpdate b i v j = b j :=
  psUpdate_apply_ne b i v j (by omega)

/-- Helper: the string-store loop writes only from `start` upwards. -/
theorem ps_store_go_low (s : List Nat) (start : Nat) (j : Nat) (hj : j < start) :
    ∀ (count i : Nat) (sawEnd : Bool) (b : Nat → Nat),
      ps_store_go s start i sawEnd b count j = b j := by
  intro count
  induction count with
  | zero => intro i sawEnd b; rfl
  | succ count ih =>
    intro i sawEnd b
    rw [ps_store_go]
    by_cases hse : sawEnd
    · rw [if_pos hse, ih, psUpdate_apply_ne _ _ _ _ (by omega)]
    · rw [if_neg hse, ih, psUpdate_apply_ne _ _ _ _ (by omega)]

/-- Helper: `ps_store_string` writes only from `start` upwards. -/
theorem ps_store_string_low (s : List Nat) (start maxLen : Nat)
    (b : Nat → Nat) (j : Nat) (hj : j < start) :
    ps_store_string s start maxLen b j = b j :=
  ps_store_go_low s start j hj maxLen 0 false b

/-- Helper: the IP-byte writes of `ps_set_wifi_info` do not touch low
addresses. -/
theorem ps_set_wifi_ip_bytes_low (info : WifiInfo) (b : Nat → Nat)
    (j : Nat) (hj : j < 3) : ps_set_wifi_ip_bytes info b j = b j := by
  unfold ps_set_wifi_ip_bytes
  rw [psUpdate_low _ _ _ _ (by decide) hj, psUpdate_low _ _ _ _ (by decide) hj,
      psUpdate_low _ _ _ _ (by decide) hj, psUpdate_low _ _ _ _ (by decide) hj,
      psUpdate_low _ _ _ _ (by decide) hj, psUpdate_low _ _ _ _ (by decide) hj,
      psUpdate_low _ _ _ _ (by decide) hj, psUpdate_low _ _ _ _ (by decide) hj]

/-- Helper: every save operation leaves the magic-word bytes unchanged. -/
theorem ps_apply_low (op : PsOp) (b : Nat → Nat) (j : Nat) (hj : j < 3) :
    ps_apply op b j = b j := by
  cases op with
  | recEnable en =>
    show ps_set_rec_enable en b j = b j
    unfold ps_set_rec_enable
    rw [ps_seal_low _ _ hj, psUpdate_low _ _ _ _ (by decide) hj]
  | wifi info =>
    show ps_set_wifi_info info b j = b j
    unfold ps_set_wifi_info
    rw [ps_seal_low _ _ hj, ps_set_wifi_ip_bytes_low _ _ _ hj, ps_seal_low _ _ hj,
        psUpdate_low _ _ _ _ (by decide) hj,
        ps_store_string_low _ _ _ _ _ (by exact lt_of_lt_of_le hj (by decide)),
        ps_store_string_low _ _ _ _ _ (by exact lt_of_lt_of_le hj (by decide)),
        ps_store_string_low _ _ _ _ _ (by exact lt_of_lt_of_le hj (by decide)),
        ps_store_string_low _ _ _ _ _ (by exact lt_of_lt_of_le hj (by decide))]
  | gui st =>
    show ps_set_gui_state st b j = b j
    unfold ps_set_gui_state
    rw [ps_seal_low _ _ hj,
        ps_store_string_low _ _ _ _ _ (by exact lt_of_lt_of_le hj (by decide)),
        psUpdate_low _ _ _ _ (by decide) hj, psUpdate_low _ _ _ _ (by decide) hj,
        psUpdate_low _ _ _ _ (by decide) hj, psUpdate_low _ _ _ _ (by decide) hj,
        psUpdate_low _ _ _ _ (by decide) hj]

/-- Helper: every save operation ends by sealing the checksum, so its
result satisfies checksum closure. -/
theorem ps_apply_closure (op : PsOp) (b : Nat → Nat) :
    ps_apply op b PS_CHECKSUM_ADDR % 256 =
      ps_compute_checksum (ps_apply op b) := by
  cases op with
  | recEnable en => exact ps_seal_closure _
  | wifi info => exact ps_seal_closure _
  | gui st => exact ps_seal_closure _

/-- Helper: the common tail of `ps_init_array` does not touch low
addresses. -/
theorem ps_init_array_tail_low (b : Nat → Nat) (j : Nat) (hj : j < 3) :
    ps_init_array_tail b j = b j := by
  unfold ps_init_array_tail
  rw [ps_seal_low _ _ hj,
      psUpdate_low _ _ _ _ (by decide) hj, psUpdate_low _ _ _ _ (by decide) hj,
      ps_store_string_low _ _ _ _ _ (by exact lt_of_lt_of_le hj (by decide)),
      psUpdate_low _ _ _ _ (by decide) hj, psUpdate_low _ _ _ _ (by decide) hj,
      psUpdate_low _ _ _ _ (by decide) hj,
      psUpdate_low _ _ _ _ (by decide) hj, psUpdate_low _ _ _ _ (by decide) hj,
      psUpdate_low _ _ _ _ (by decide) hj, psUpdate_low _ _ _ _ (by decide) hj,
      psUpdate_low _ _ _ _ (by decide) hj, psUpdate_low _ _ _ _ (by decide) hj,
      psUpdate_low _ _ _ _ (by decide) hj, psUpdate_low _ _ _ _ (by decide) hj,
      ps_store_string_low _ _ _ _ _ (by exact lt_of_lt_of_le hj (by decide)),
      ps_store_string_low _ _ _ _ _ (by exact lt_of_lt_of_le hj (by decide))]

/-- Helper: the version-1 head of `ps_init_array` sets the magic word. -/
theorem ps_init_array_v1_magic (def_ssid : List Nat) :
    ps_init_array_v1 def_ssid PS_MAGIC_WORD_0_ADDR % 256 = PS_MAGIC_WORD_0 ∧
    ps_init_array_v1 def_ssid PS_MAGIC_WORD_1_ADDR % 256 = PS_MAGIC_WORD_1 := by
  unfold ps_init_array_v1
  refine ⟨?_, ?_⟩
  · rw [ps_store_string_low _ _ _ _ _ (by decide),
        ps_store_string_low _ _ _ _ _ (by decide),
        psUpdate_apply_ne _ _ _ _ (by decide), psUpdate_apply_ne _ _ _ _ (by decide),
        psUpdate_apply_ne _ _ _ _ (by decide), psUpdate_apply_ne _ _ _ _ (by decide)]
    rfl
  · rw [ps_store_string_low _ _ _ _ _ (by decide),
        ps_store_string_low _ _ _ _ _ (by decide),
        psUpdate_apply_ne _ _ _ _ (by decide), psUpdate_apply_ne _ _ _ _ (by decide),
        psUpdate_apply_ne _ _ _ _ (by decide)]
    rfl

/-- Helper: `ps_init` establishes the store invariant. -/
theorem ps_init_inv (prior : Nat → Nat) (def_ssid : List Nat) :
    PsInv (ps_init prior def_ssid) := by
  unfold ps_init
  by_cases h1 : ps_valid_magic_word prior = false ∨
      ps_compute_checksum prior ≠ prior PS_CHECKSUM_ADDR % 256
  · rw [if_pos h1]
    unfold ps_init_array
    rw [if_neg (by simp)]
    refine ⟨ps_seal_closure _, ?_, ?_⟩
    · rw [ps_init_array_tail_low _ _ (by decide)]
      exact (ps_init_array_v1_magic def_ssid).1
    · rw [ps_init_array_tail_low _ _ (by decide)]
      exact (ps_init_array_v1_magic def_ssid).2
  · rw [if_neg h1]
    push_neg at h1
    obtain ⟨hm, hc⟩ := h1
    have hmagic : prior PS_MAGIC_WORD_0_ADDR % 256 = PS_MAGIC_WORD_0 ∧
        prior PS_MAGIC_WORD_1_ADDR % 256 = PS_MAGIC_WORD_1 := by
      have : ps_valid_magic_word prior = true := by
        cases hb : ps_valid_magic_word prior
        · exact absurd hb hm
        · rfl
      unfold ps_valid_magic_word at this
      simpa using this
    by_cases h2 : prior PS_LAYOUT_VERSION_ADDR % 256 = 1
    · rw [if_pos h2]
      unfold ps_init_array
      rw [if_pos rfl]
      refine ⟨ps_seal_closure _, ?_, ?_⟩
      · rw [ps_init_array_tail_low _ _ (by decide),
            psUpdate_apply_ne _ _ _ _ (by decide)]
        exact hmagic.1
      · rw [ps_init_array_tail_low _ _ (by decide),
            psUpdate_apply_ne _ _ _ _ (by decide)]
        exact hmagic.2
    · rw [if_neg h2]
      exact ⟨hc.symm, hmagic.1, hmagic.2⟩

/-- Helper: the store invariant is preserved by any sequence of save
operations. -/
theorem ps_ops_inv : ∀ (ops : List PsOp) (b : Nat → Nat), PsInv b →
    PsInv (ops.foldl (fun x op => ps_apply op x) b) := by
  intro ops
  induction ops with
  | nil => intro b h; exact h
  | cons op rest ih =>
    intro b h
    rw [List.foldl_cons]
    apply ih
    show PsInv (ps_apply op b)
    exact ⟨ps_apply_closure op b,
           by rw [ps_apply_low op b _ (by decide)]; exact h.2.1,
           by rw [ps_apply_low op b _ (by decide)]; exact h.2.2⟩

/-- Claim C7: every store state produced by the persistent-store API —
boot-time initialisation (reinitialisation from defaults, version-1
upgrade, or validated passthrough) followed by any sequence of save
operations (set rec-enable, set Wi-Fi info, set GUI state) — satisfies
checksum closure and starts with the magic word 0x12 0x34; and when the
magic word or the checksum of the stored array is invalid at boot, the
whole store is reinitialised from defaults. -/
theorem claim_C7_store_invariants :
    (∀ (prior : Nat → Nat) (def_ssid : List Nat) (ops : List PsOp),
      PsInv (ops.foldl (fun b op => ps_apply op b) (ps_init prior def_ssid))) ∧
    (∀ (prior : Nat → Nat) (def_ssid : List Nat),
      (ps_valid_magic_word prior = false ∨
       ps_compute_checksum prior ≠ prior PS_CHECKSUM_ADDR % 256) →
      ps_init prior def_ssid = ps_init_array false def_ssid prior) := by
  constructor
  · intro prior def_ssid ops
    exact ps_ops_inv ops _ (ps_init_inv prior def_ssid)
  · intro prior def_ssid h
    unfold ps_init
    rw [if_pos h]

/-- Claim C7 witness: boot over zeroed SRAM (invalid magic word)
reinitialises the store from defaults. -/
theorem claim_C7_witness :
    ps_init (fun _ => 0) [] = ps_init_array false [] (fun _ => 0) :=
  claim_C7_store_invariants.2 (fun _ => 0) [] (Or.inl (by decide))

/-- Claim C9, counterexample: `psCorruptStore` passes the boot check
untouched (valid magic word and checksum, layout version 2), yet the read
operation `ps_get_gui_state` changes store bytes: the stored recording
interval 0 is not in the legal table, so the reader repairs the interval
bytes and rewrites the checksum. -/
theorem claim_C9_counterexample :
    ps_init psCorruptStore [] = psCorruptStore ∧
    psCorruptStore (PS_REC_INTERVAL_ADDR + 1) = 0 ∧
    (ps_get_gui_state psCorruptStore).2 (PS_REC_INTERVAL_ADDR + 1) = 1 := by
  refine ⟨?_, by decide, by decide⟩
  unfold ps_init
  rw [if_neg (by decide), if_neg (by decide)]

/-- Claim C9 (amended): `ps_get_rec_enable` and `ps_get_wifi_info` are
pure reads of the shadow buffer; `ps_get_gui_state` leaves every store
byte (checksum included) unchanged provided the stored recording interval
is legal and the stored palette name is known, and otherwise repairs the
offending field and the checksum. -/
theorem claim_C9_amended (b : Nat → Nat)
    (h1 : (system_get_rec_interval_index
            (b PS_REC_INTERVAL_ADDR % 256 * 256 +
             b (PS_REC_INTERVAL_ADDR + 1) % 256)).isSome = true)
    (h2 : (get_palette_by_name
            (ps_read_cstring b PS_PALETTE_NAME_ADDR
              (PS_PALETTE_NAME_LEN + 1))).isSome = true) :
    (ps_get_gui_state b).2 = b := by
  rw [Option.isSome_iff_exists] at h1 h2
  obtain ⟨i1, e1⟩ := h1
  obtain ⟨i2, e2⟩ := h2
  unfold ps_get_gui_state
  simp only [e1]
  simp only [e2]
  rfl

/-- Claim C9 witness: the default store (legal interval 1, palette
Fusion) is left bit-identical by `ps_get_gui_state`. -/
theorem claim_C9_witness : (ps_get_gui_state psDefaultStore).2 = psDefaultStore :=
  claim_C9_amended psDefaultStore (by decide) (by decide)

/-- Helper: reading an index just written. -/
theorem list_getD_set_self : ∀ (l : List Nat) (i v : Nat), i < l.length →
    (l.set i v).getD i 0 = v := by
  intro l
  induction l with
  | nil => intro i v h; simp at h
  | cons hd tl ih =>
    intro i v h
    cases i with
    | zero => rfl
    | succ i =>
      show (tl.set i v).getD i 0 = v
      exact ih i v (by simpa using h)

/-- Helper: writing back the value already present changes nothing. -/
theorem list_set_getD_self : ∀ (l : List Nat) (i : Nat), i < l.length →
    l.set i (l.getD i 0) = l := by
  intro l
  induction l with
  | nil => intro i h; simp at h
  | cons hd tl ih =>
    intro i h
    cases i with
    | zero => rfl
    | succ i =>
      show hd :: tl.set i (tl.getD i 0) = hd :: tl
      rw [ih i (by simpa using h)]

/-- Helper (checked by evaluation over all octets): parsing the decimal
rendering of an octet with the source's `uint8_t` multiply-and-add
accumulation recovers the octet. -/
theorem natToDec_fold_all : ((List.range 256).all (fun n =>
    (natToDec n).foldl (fun x d => (x * 10 + (d - 48)) % 256) 0 == n)) = true := by
  decide

/-- Helper: pointwise form of `natToDec_fold_all`. -/
theorem natToDec_fold (n : Nat) (h : n < 256) :
    (natToDec n).foldl (fun x d => (x * 10 + (d - 48)) % 256) 0 = n := by
  have hall := natToDec_fold_all
  rw [List.all_eq_true] at hall
  have h2 := hall n (List.mem_range.mpr h)
  simpa using h2

/-- Helper (checked by evaluation over all octets): the rendering emits
only digit characters. -/
theorem natToDec_digits_all : ((List.range 256).all (fun n =>
    (natToDec n).all (fun d => 48 ≤ d && d ≤ 57))) = true := by
  decide

/-- Helper: pointwise form of `natToDec_digits_all`. -/
theorem natToDec_digits_mem (n : Nat) (h : n < 256) :
    ∀ d ∈ natToDec n, 48 ≤ d ∧ d ≤ 57 := by
  have hall := natToDec_digits_all
  rw [List.all_eq_true] at hall
  have h2 := hall n (List.mem_range.mpr h)
  rw [List.all_eq_true] at h2
  intro d hd
  have h3 := h2 d hd
  simp at h3
  exact h3

/-- Helper: consuming a run of digit characters accumulates them into the
current array cell and continues with the rest of the string. -/
theorem ipParseGo_digits :
    ∀ (ds : List Nat) (a : Nat) (arr : List Nat) (i : Nat) (rest : List Nat),
      i < arr.length → arr.getD i 0 = a →
      (∀ d ∈ ds, 48 ≤ d ∧ d ≤ 57) →
      ipParseGo arr i (ds ++ rest) =
        ipParseGo (arr.set i (ds.foldl (fun x d => (x * 10 + (d - 48)) % 256) a))
          i rest := by
  intro ds
  induction ds with
  | nil =>
    intro a arr i rest hlen hget _
    rw [List.nil_append, List.foldl_nil, ← hget, list_set_getD_self arr i hlen]
  | cons d ds ih =>
    intro a arr i rest hlen hget hdig
    have hd := hdig d (List.mem_cons_self d ds)
    have step : ipParseGo arr i (d :: (ds ++ rest)) =
        ipParseGo (arr.set i ((arr.getD i 0 * 10 + (d - 48)) % 256)) i (ds ++ rest) := by
      simp only [ipParseGo]
      rw [if_neg (by omega), if_pos ⟨hd.1, hd.2⟩]
    rw [List.cons_append, step, hget,
        ih ((a * 10 + (d - 48)) % 256) _ i rest
          (by rw [List.length_set]; exact hlen)
          (list_getD_set_self arr i _ hlen)
          (fun x hx => hdig x (List.mem_cons_of_mem d hx)),
        List.set_set, List.foldl_cons]

/-- Helper: a '.' at a nonzero array index moves to the next lower index,
zeroing it. -/
theorem ipParseGo_dot (arr : List Nat) (i : Nat) (hi : i ≠ 0) (L : List Nat) :
    ipParseGo arr i (46 :: L) = ipParseGo (arr.set (i - 1) 0) (i - 1) L := by
  simp only [ipParseGo]
  rw [if_pos trivial, if_neg hi]

/-- Claim C8: IP parse composed with IP render is the identity — for
every 4-byte array `[a,b,c,d]` with each octet in 0..255, rendering
indices [3][2][1][0] as a dotted decimal string and parsing the string
back (octets consumed left-to-right into indices [3],[2],[1],[0] of a
4-entry destination array) recovers `[a,b,c,d]` exactly. -/
theorem claim_C8_ip_roundtrip (a b c d : Nat) (arr : List Nat)
    (ha : a < 256) (hb : b < 256) (hc : c < 256) (hd : d < 256)
    (harr : arr.length = 4) :
    json_ip_string_to_array arr (json_render_ip [a, b, c, d]) =
      some [a, b, c, d] := by
  rcases arr with _ | ⟨w, _ | ⟨x, _ | ⟨y, _ | ⟨z, _ | ⟨v, tl⟩⟩⟩⟩⟩ <;>
    simp only [List.length_cons, List.length_nil] at harr <;> try omega
  show ipParseGo [w, x, y, 0] 3
      (natToDec d ++ (46 :: (natToDec c ++ (46 :: (natToDec b ++
        (46 :: natToDec a)))))) = some [a, b, c, d]
  rw [ipParseGo_digits (natToDec d) 0 [w, x, y, 0] 3 _ (by simp) rfl
        (natToDec_digits_mem d hd), natToDec_fold d hd]
  rw [show List.set [w, x, y, 0] 3 d = [w, x, y, d] from rfl]
  rw [ipParseGo_dot [w, x, y, d] 3 (by omega)]
  rw [show (3 - 1 : Nat) = 2 from rfl,
      show List.set [w, x, y, d] 2 0 = [w, x, 0, d] from rfl]
  rw [ipParseGo_digits (natToDec c) 0 [w, x, 0, d] 2 _ (by simp) rfl
        (natToDec_digits_mem c hc), natToDec_fold c hc]
  rw [show List.set [w, x, 0, d] 2 c = [w, x, c, d] from rfl]
  rw [ipParseGo_dot [w, x, c, d] 2 (by omega)]
  rw [show (2 - 1 : Nat) = 1 from rfl,
      show List.set [w, x, c, d] 1 0 = [w, 0, c, d] from rfl]
  rw [ipParseGo_digits (natToDec b) 0 [w, 0, c, d] 1 _ (by simp) rfl
        (natToDec_digits_mem b hb), natToDec_fold b hb]
  rw [show List.set [w, 0, c, d] 1 b = [w, b, c, d] from rfl]
  rw [ipParseGo_dot [w, b, c, d] 1 (by omega)]
  rw [show (1 - 1 : Nat) = 0 from rfl,
      show List.set [w, b, c, d] 0 0 = [0, b, c, d] from rfl]
  rw [show natToDec a = natToDec a ++ ([] : List Nat) from (List.append_nil _).symm]
  rw [ipParseGo_digits (natToDec a) 0 [0, b, c, d] 0 [] (by simp) rfl
        (natToDec_digits_mem a ha), natToDec_fold a ha]
  rw [show List.set [0, b, c, d] 0 a = [a, b, c, d] from rfl]
  rfl

/-- Claim C8 witness: the round trip at the default AP address bytes. -/
theorem claim_C8_witness :
    json_ip_string_to_array [0, 0, 0, 0] (json_render_ip [1, 4, 168, 192]) =
      some [1, 4, 168, 192] :=
  claim_C8_ip_roundtrip 1 4 168 192 [0, 0, 0, 0] (by decide) (by decide)
    (by decide) (by decide) (by decide)

end Firecam
